import Mathlib

/-!
# Verification of the indicator/scoring pipeline of `src/app.py`

This file is a shallow embedding of the substantive logic of the repository's
single source file `src/app.py`:

* `fetch_data` (the Candle Normalizer, lines 70-85),
* `add_indicators` (the Indicator Engine, lines 88-123, which delegates the
  numeric formulas to the `pandas_ta` library, embedded here from that
  library's implementations), and
* the module-scope "rule of three" Signal Scorer (lines 151-203).

Numeric cells are modelled exactly, as rationals, instead of IEEE doubles;
the two distinct "missing" values that actually occur in the program are
modelled explicitly:

* `PyVal.nan` - the float NaN that pandas uses for warm-up entries.
  Comparisons against it are `False` and arithmetic with it yields NaN.
* `PyVal.pynone` - the Python `None` object, which a whole column is filled
  with when a `pandas_ta` call returns `None` and the result is assigned to
  a DataFrame column.  Ordered comparison against it raises `TypeError`.

Fallible Python code is modelled with `Except PyErr`.
-/

/-- Errors raised by the embedded Python fragments. -/
inductive PyErr where
  | typeError
  | keyError
  | indexError
  deriving DecidableEq, Repr

/-- A cell value of a pandas column: an exact numeric value, the float `NaN`,
or the Python `None` object. -/
inductive PyVal where
  | num (q : ℚ)
  | nan
  | pynone
  deriving DecidableEq, Repr

namespace PyVal

/-- The numeric content of a cell, if any (`NaN` and `None` have none). -/
def toOpt : PyVal → Option ℚ
  | num q => some q
  | nan => none
  | pynone => none

/-- Whether the cell holds an actual number (not `NaN`, not `None`). -/
def isNum : PyVal → Bool
  | num _ => true
  | nan => false
  | pynone => false

end PyVal

open PyVal

/-- Python `a > b` on cells: `TypeError` when `None` is involved, `False`
when `NaN` is involved, ordinary comparison on numbers. -/
def pyGt : PyVal → PyVal → Except PyErr Bool
  | .num x, .num y => .ok (decide (y < x))
  | .pynone, _ => .error .typeError
  | _, .pynone => .error .typeError
  | _, _ => .ok false

/-- Python `a < b` on cells. -/
def pyLt (a b : PyVal) : Except PyErr Bool := pyGt b a

/-- NaN-propagating addition (`None` never occurs in the numeric columns the
indicator formulas run on; it is treated like an invalid value). -/
def pyAdd : PyVal → PyVal → PyVal
  | .num x, .num y => .num (x + y)
  | _, _ => .nan

/-- NaN-propagating subtraction. -/
def pySub : PyVal → PyVal → PyVal
  | .num x, .num y => .num (x - y)
  | _, _ => .nan

/-- NaN-propagating multiplication. -/
def pyMul : PyVal → PyVal → PyVal
  | .num x, .num y => .num (x * y)
  | _, _ => .nan

-- `Except` needs decidable equality for concrete evaluations below
deriving instance DecidableEq for Except

/-- NaN-propagating absolute value. -/
def pyAbs : PyVal → PyVal
  | .num x => .num |x|
  | _ => .nan

/-- Boolean `a > b` in a numeric (never-`None`) context: `False` when NaN is
involved (numpy comparison semantics). -/
def pyGtB : PyVal → PyVal → Bool
  | .num x, .num y => decide (y < x)
  | _, _ => false

/-- Boolean `a < b` in a numeric context. -/
def pyLtB (a b : PyVal) : Bool := pyGtB b a

/-! ## Rolling and exponentially weighted means (pandas semantics)

The indicator formulas below run on the float OHLCV columns, which never
contain the `None` object; `pynone` is treated like an invalid entry in
these helpers. -/

/-- The numeric contents of a window, if every entry is valid. -/
def allNums : List PyVal → Option (List ℚ)
  | [] => some []
  | x :: xs =>
    match x.toOpt, allNums xs with
    | some q, some qs => some (q :: qs)
    | _, _ => none

/-- pandas `Series.mean()` over a slice: mean of the valid entries, NaN when
there are none (NaN entries are skipped). -/
def skipnaMean (w : List PyVal) : PyVal :=
  let qs := w.filterMap toOpt
  if qs.length = 0 then .nan else .num (qs.sum / (qs.length : ℚ))

/-- `Series.rolling(len, min_periods=len).mean()`: NaN until the window is
full, NaN when the full window holds an invalid entry, else the mean. -/
def rollingMean (xs : List PyVal) (len : ℕ) : List PyVal :=
  (List.range xs.length).map fun i =>
    if i + 1 < len then .nan
    else
      match allNums ((xs.take (i+1)).drop (i + 1 - len)) with
      | some qs => .num (qs.sum / (len : ℚ))
      | none => .nan

/-- `Series.rolling(len, min_periods=len).var(ddof)`. -/
def rollingVar (xs : List PyVal) (len ddof : ℕ) : List PyVal :=
  (List.range xs.length).map fun i =>
    if i + 1 < len then .nan
    else
      match allNums ((xs.take (i+1)).drop (i + 1 - len)) with
      | some qs =>
        let m := qs.sum / (len : ℚ)
        .num ((qs.map fun x => (x - m)^2).sum / ((len - ddof : ℕ) : ℚ))
      | none => .nan

/-- `Series.ewm(alpha=a, adjust=False, ignore_na=False).mean()`.
`y` is the current mean (`none` before the first valid entry), `gap` the
number of invalid entries since the last valid one (with `ignore_na=False`
a gap of `g` weights the old mean by `(1-a)^(g+1)`).  An invalid entry
outputs NaN before the first valid one and the unchanged mean after. -/
def ewmAdjFalse (a : ℚ) : Option ℚ → ℕ → List PyVal → List PyVal
  | _, _, [] => []
  | y, gap, x :: xs =>
    match x.toOpt with
    | none =>
      (match y with | none => PyVal.nan | some y0 => PyVal.num y0) ::
        ewmAdjFalse a y (gap+1) xs
    | some q =>
      match y with
      | none => PyVal.num q :: ewmAdjFalse a (some q) 0 xs
      | some y0 =>
        let w := (1 - a)^(gap+1)
        PyVal.num ((w*y0 + a*q)/(w + a)) ::
          ewmAdjFalse a (some ((w*y0 + a*q)/(w + a))) 0 xs

/-- `Series.ewm(alpha=a, adjust=True, ignore_na=False, min_periods=minp).mean()`.
`wsum`/`wtot` are the running weighted sum and total weight (both decayed by
`1-a` at every position, valid or not, which is exactly the
`ignore_na=False` absolute-position weighting), `cnt` the number of valid
entries seen; the output is NaN until `minp` valid entries were seen. -/
def ewmAdjTrue (a : ℚ) (minp : ℕ) : ℚ → ℚ → ℕ → List PyVal → List PyVal
  | _, _, _, [] => []
  | wsum, wtot, cnt, x :: xs =>
    match x.toOpt with
    | none =>
      (if minp ≤ cnt ∧ 0 < cnt then PyVal.num (wsum/wtot) else PyVal.nan) ::
        ewmAdjTrue a minp ((1-a)*wsum) ((1-a)*wtot) cnt xs
    | some q =>
      (if minp ≤ cnt+1 then PyVal.num (((1-a)*wsum + q)/((1-a)*wtot + 1))
       else PyVal.nan) ::
        ewmAdjTrue a minp ((1-a)*wsum + q) ((1-a)*wtot + 1) (cnt+1) xs

/-! ## Indicator formulas, embedded from `pandas_ta` (0.3.14)

Every function mirrors the corresponding `pandas_ta` implementation,
including its `verify_series(series, length)` guard, which returns `None`
(here `Option.none`) exactly when the series has fewer than `length` rows;
the guard tests the size of the series only, not the validity of its
entries. -/

/-- `ta.sma(close, length)`: full-window rolling mean. -/
def ta_sma (close : List PyVal) (length : ℕ) : Option (List PyVal) :=
  if close.length < length then none
  else some (rollingMean close length)

/-- `ta.ema(close, length)` with the default `sma=True` seeding: the first
`length-1` entries are replaced by NaN, entry `length-1` by the (skipna)
mean of the first `length` entries, and the seeded series is smoothed with
`ewm(span=length, adjust=False).mean()`, i.e. `alpha = 2/(length+1)`. -/
def ta_ema (close : List PyVal) (length : ℕ) : Option (List PyVal) :=
  if close.length < length then none
  else
    let seeded := List.replicate (length - 1) PyVal.nan ++
      skipnaMean (close.take length) :: close.drop length
    some (ewmAdjFalse (2/((length : ℚ)+1)) none 0 seeded)

/-- `Series.diff()`: NaN first entry, then NaN-propagating differences. -/
def pyDiff (xs : List PyVal) : List PyVal :=
  (List.range xs.length).map fun i =>
    match i with
    | 0 => PyVal.nan
    | j+1 => pySub (xs.getD (j+1) PyVal.nan) (xs.getD j PyVal.nan)

/-- `positive[positive < 0] = 0` on one entry: negative moves are clamped
to zero, NaN stays NaN (a NaN comparison is `False`, so NaN is not
clamped). -/
def clampPos : PyVal → PyVal
  | .num q => .num (if q < 0 then 0 else q)
  | _ => .nan

/-- `negative[negative > 0] = 0` on one entry. -/
def clampNeg : PyVal → PyVal
  | .num q => .num (if 0 < q then 0 else q)
  | _ => .nan

/-- The final RSI ratio `100 * pavg / (pavg + |navg|)` on one row.  When
numerator and denominator are both zero this is the pandas `0.0/0.0 = NaN`
(the clamping keeps `pavg ≥ 0`, so a zero denominator forces a zero
numerator and no other division-by-zero case occurs). -/
def rsiCombine : PyVal → PyVal → PyVal
  | .num pq, .num nq =>
    if pq + |nq| = 0 then .nan else .num (100 * pq / (pq + |nq|))
  | _, _ => .nan

/-- `ta.rsi(close, length)`: Wilder RSI.  The clamped up/down moves of
`close.diff()` are smoothed by `ta.rma`
(`ewm(alpha=1/length, min_periods=length)`, whose own size guard is
subsumed by the `rsi` one), then combined rowwise. -/
def ta_rsi (close : List PyVal) (length : ℕ) : Option (List PyVal) :=
  if close.length < length then none
  else
    some (List.zipWith rsiCombine
      (ewmAdjTrue (1/(length : ℚ)) length 0 0 0 ((pyDiff close).map clampPos))
      (ewmAdjTrue (1/(length : ℚ)) length 0 0 0 ((pyDiff close).map clampNeg)))

/-- `ta.macd(close)` with the default 12/26/9: `none` for fewer than 26 rows
(`verify_series(close, max(fast, slow, signal))`); otherwise the MACD line
`ema(close,12) - ema(close,26)` and its signal line, the 9-period `ema` of
the MACD line restricted to `macd.loc[macd.first_valid_index():]` (realigned
to the full index with NaN fill).  When that suffix has fewer than 9 rows
the inner `ema` returns `None` and the subsequent
`histogram = macd - signalma` raises a `TypeError`. -/
def ta_macd (close : List PyVal) : Except PyErr (Option (List PyVal × List PyVal)) :=
  if close.length < 26 then .ok none
  else
    match ta_ema close 12, ta_ema close 26 with
    | some fastma, some slowma =>
      let macdLine := List.zipWith pySub fastma slowma
      let fvi := macdLine.findIdx isNum
      -- `first_valid_index()` is `None` for an all-NaN line, and
      -- `loc[None:]` is the whole series
      let suffix := if fvi = macdLine.length then macdLine else macdLine.drop fvi
      match ta_ema suffix 9 with
      | some sig =>
        .ok (some (macdLine,
          List.replicate (macdLine.length - suffix.length) PyVal.nan ++ sig))
      | none => .error .typeError
    | _, _ => .ok none   -- unreachable: `26 ≤ close.length`

/-- Exact square root on `ℚ`: the rational root when one exists, else `0`.
The Bollinger computation is the one place the source takes a square root;
a non-perfect-square variance has an irrational root with no exact rational
representative.  No claim in this development inspects such a value, and
the column bookkeeping is unaffected by it. -/
def ratSqrt (q : ℚ) : ℚ :=
  let n := Nat.sqrt q.num.toNat
  let d := Nat.sqrt q.den
  if (n : ℤ)*(n : ℤ) = q.num ∧ d*d = q.den then (n : ℚ)/(d : ℚ) else 0

/-- `ta.bbands(close, length=20)` (default 2 standard deviations, `ddof=0`,
`mamode="sma"`): the upper and lower bands `sma ± 2*sqrt(rolling var)`;
only the two columns `add_indicators` selects. -/
def ta_bbands (close : List PyVal) (length : ℕ) : Option (List PyVal × List PyVal) :=
  if close.length < length then none
  else
    let mid := rollingMean close length
    let dev := (rollingVar close length 0).map fun x =>
      match x with
      | .num q => PyVal.num (2 * ratSqrt q)
      | _ => PyVal.nan
    some (List.zipWith pyAdd mid dev, List.zipWith pySub mid dev)

/-- `ta.true_range(high, low, close)`: the rowwise NaN-skipping max of
`high - low`, `|high - prevclose|` and `|low - prevclose|`, with the first
`drift = 1` entries forced to NaN. -/
def trueRange (high low close : List PyVal) : List PyVal :=
  (List.range high.length).map fun i =>
    match i with
    | 0 => PyVal.nan
    | j+1 =>
      let cands := [pySub (high.getD (j+1) PyVal.nan) (low.getD (j+1) PyVal.nan),
        pyAbs (pySub (high.getD (j+1) PyVal.nan) (close.getD j PyVal.nan)),
        pyAbs (pySub (low.getD (j+1) PyVal.nan) (close.getD j PyVal.nan))]
      match (cands.filterMap toOpt).max? with
      | some m => PyVal.num m
      | none => PyVal.nan

/-- The band-flipping loop of `ta.supertrend`, from index 1 on.  `d` is the
previous direction, `ub`/`lb` the previous (possibly carried-forward) band
values, and the list pairs each remaining close with its raw band values.
NaN comparisons are `False`, as in the Python loop. -/
def supertrendLoop (d : ℤ) (ub lb : PyVal) :
    List (PyVal × PyVal × PyVal) → List PyVal
  | [] => []
  | (c, u, l) :: rest =>
    if pyGtB c ub then
      (if (1 : ℤ) > 0 then l else u) :: supertrendLoop 1 u l rest
    else if pyLtB c lb then
      (if (-1 : ℤ) > 0 then l else u) :: supertrendLoop (-1) u l rest
    else
      let l' := if d > 0 ∧ pyLtB l lb then lb else l
      let u' := if d < 0 ∧ pyGtB u ub then ub else u
      (if d > 0 then l' else u') :: supertrendLoop d u' l' rest

/-- `ta.supertrend(high, low, close, length=10, multiplier=3)`: `none` for
fewer than `length` rows; otherwise only the `SUPERT_` trend column that
`add_indicators` selects (a Python list initialized with `0`, so entry 0 is
the number `0`).  The bands are `hl2 ± multiplier * atr(length)`, with
`atr = rma(true_range, length)`. -/
def ta_supertrend (high low close : List PyVal) (length : ℕ) (mult : ℚ) :
    Option (List PyVal) :=
  if high.length < length then none
  else
    let hl2 := List.zipWith (fun h l => pyMul (pyAdd h l) (.num (1/2))) high low
    let matr := (ewmAdjTrue (1/(length : ℚ)) length 0 0 0
      (trueRange high low close)).map fun x => pyMul (.num mult) x
    let upper := List.zipWith pyAdd hl2 matr
    let lower := List.zipWith pySub hl2 matr
    match close, upper, lower with
    | _ :: cRest, _ :: uRest, _ :: lRest =>
      match upper, lower with
      | u0 :: _, l0 :: _ =>
        some (PyVal.num 0 :: supertrendLoop 1 u0 l0 (cRest.zip (uRest.zip lRest)))
      | _, _ => some [PyVal.num 0]
    | _, _, _ => some []

/-- `ta.vwap(high, low, close, volume)` with the default daily anchor:
cumulative `hlc3 * volume` over cumulative volume, each cumulated within
the calendar day of the row's timestamp
(`groupby(index.to_period("D")).cumsum()`).  Timestamps are minutes, so the
day of `t` is `t.fdiv 1440`.  The cumsums skip invalid entries but output
NaN at them, and a zero cumulative volume is the pandas `0.0/0.0 = NaN`
(volumes are nonnegative, so the weighted sum is zero there too). -/
def ta_vwap (index : List ℤ) (high low close volume : List PyVal) : List PyVal :=
  let tp := List.zipWith (fun hl c => pyMul (pyAdd hl c) (.num (1/3)))
      (List.zipWith pyAdd high low) close
  let wp := List.zipWith pyMul tp volume
  (List.range index.length).map fun i =>
    let day := (index.getD i 0).fdiv 1440
    let sameDay := (List.range (i+1)).filter fun j => (index.getD j 0).fdiv 1440 = day
    let ws := (sameDay.map fun j => wp.getD j PyVal.nan).filterMap toOpt
    let vs := (sameDay.map fun j => volume.getD j PyVal.nan).filterMap toOpt
    if (wp.getD i PyVal.nan).isNum ∧ (volume.getD i PyVal.nan).isNum then
      (if vs.sum = 0 then PyVal.nan else PyVal.num (ws.sum / vs.sum))
    else PyVal.nan

/-! ## DataFrames -/

/-- A pandas DataFrame as the program uses it: a timestamp index (minutes
since an epoch) plus named columns. -/
structure Frame where
  index : List ℤ
  cols : List (String × List PyVal)
  deriving DecidableEq, Repr

namespace Frame

/-- Column read `df[name]`: `KeyError` when absent. -/
def getCol (f : Frame) (name : String) : Except PyErr (List PyVal) :=
  match f.cols.lookup name with
  | some c => .ok c
  | none => .error .keyError

/-- Column write `df[name] = column` on the column list: replaces an
existing column in place, otherwise appends the new column at the end. -/
def setColAux : List (String × List PyVal) → String → List PyVal →
    List (String × List PyVal)
  | [], name, vs => [(name, vs)]
  | (n, c) :: rest, name, vs =>
    if n = name then (n, vs) :: rest else (n, c) :: setColAux rest name vs

/-- Column write `df[name] = column` on a frame. -/
def setCol (f : Frame) (name : String) (vs : List PyVal) : Frame :=
  ⟨f.index, setColAux f.cols name vs⟩

/-- `df.empty` (no rows). -/
def empty (f : Frame) : Bool := f.index.isEmpty

end Frame

/-- Assigning a `pandas_ta` result to a column: a returned Series is stored
as it is; a returned `None` broadcasts into a column of `None` entries
(`df[name] = None`). -/
def colOfOpt (n : ℕ) : Option (List PyVal) → List PyVal
  | some vs => vs
  | none => List.replicate n PyVal.pynone

/-- `add_indicators(df, is_intraday)` (src/app.py lines 88-123).  The
guarded indicators (Supertrend, MACD, Bollinger) are added only when the
`pandas_ta` call did not return `None`; the unguarded ones are assigned
unconditionally; VWAP is computed only when `is_intraday` is true. -/
def add_indicators (df : Frame) (is_intraday : Bool) : Except PyErr Frame :=
  match df.getCol "Close" with
  | .error e => .error e
  | .ok close =>
    let n := df.index.length
    let f1 := df.setCol "SMA_50" (colOfOpt n (ta_sma close 50))
    let f2 := f1.setCol "EMA_50" (colOfOpt n (ta_ema close 50))
    match f2.getCol "High" with
    | .error e => .error e
    | .ok high =>
      match f2.getCol "Low" with
      | .error e => .error e
      | .ok low =>
        let f3 := match ta_supertrend high low close 10 3 with
          | some tr => f2.setCol "Supertrend" tr
          | none => f2
        let f4 := f3.setCol "RSI" (colOfOpt n (ta_rsi close 14))
        match ta_macd close with
        | .error e => .error e
        | .ok mres =>
          let f5 := match mres with
            | some (m, s) => (f4.setCol "MACD" m).setCol "MACD_Signal" s
            | none => f4
          let f6 := match ta_bbands close 20 with
            | some (u, lo) => (f5.setCol "BB_Upper" u).setCol "BB_Lower" lo
            | none => f5
          match f6.getCol "Volume" with
          | .error e => .error e
          | .ok vol =>
            let f7 := f6.setCol "Vol_SMA_5" (colOfOpt n (ta_sma vol 5))
            .ok (if is_intraday
              then f7.setCol "VWAP" (ta_vwap df.index high low close vol)
              else f7)

/-! ## The Candle Normalizer (`fetch_data`, lines 70-85) -/

/-- The failure modes of the candle fetch call that the spec collapses into
a single `FetchError`. -/
inductive FetchErr where
  | network | invalidSymbol | marketClosed | malformedPayload
  deriving DecidableEq, Repr

/-- One raw candle row of the Gateway payload.  A `none` field models a
timestamp `pd.to_datetime` cannot parse resp. a value `astype(float)`
cannot cast. -/
structure RawRow where
  ts : Option ℤ
  o : Option ℚ
  h : Option ℚ
  l : Option ℚ
  c : Option ℚ
  v : Option ℚ
  deriving DecidableEq, Repr

/-- A fully parsed candle row. -/
structure Candle where
  ts : ℤ
  o : ℚ
  h : ℚ
  l : ℚ
  c : ℚ
  v : ℚ
  deriving DecidableEq, Repr

/-- Parsing one raw row (timestamp parse + float casts). -/
def parseRow (r : RawRow) : Option Candle :=
  match r.ts, r.o, r.h, r.l, r.c, r.v with
  | some ts, some o, some h, some l, some c, some v => some ⟨ts, o, h, l, c, v⟩
  | _, _, _, _, _, _ => none

/-- The normalized frame: timestamp index and float OHLCV columns, in the
order the rows arrived - `fetch_data` has no sorting step. -/
def mkFrame (rows : List Candle) : Frame :=
  { index := rows.map Candle.ts
    cols := [("Open", (rows.map Candle.o).map PyVal.num),
             ("High", (rows.map Candle.h).map PyVal.num),
             ("Low", (rows.map Candle.l).map PyVal.num),
             ("Close", (rows.map Candle.c).map PyVal.num),
             ("Volume", (rows.map Candle.v).map PyVal.num)] }

/-- Parsing all rows (`pd.to_datetime` + `astype(float)` over the frame):
fails as soon as one row fails. -/
def parseRows : List RawRow → Option (List Candle)
  | [] => some []
  | r :: rs =>
    match parseRow r, parseRows rs with
    | some c, some cs => some (c :: cs)
    | _, _ => none

/-- `fetch_data` (lines 70-85): the bare `except:` collapses every failure,
a failed Gateway call as well as any row that fails to parse or cast, into
`None`. -/
def fetch_data (resp : Except FetchErr (List RawRow)) : Option Frame :=
  match resp with
  | .error _ => none
  | .ok rows =>
    match parseRows rows with
    | some cs => some (mkFrame cs)
    | none => none

/-! ## The Signal Scorer (lines 151-203) -/

/-- The classification banner. -/
inductive Signal where
  | STRONG_BUY | WATCHLIST | NO_TRADE
  deriving DecidableEq, Repr

/-- The daily last-row fields the Scorer reads. -/
structure DailyRow where
  close : PyVal
  ema50 : PyVal
  rsi : PyVal
  volume : PyVal
  volSMA5 : PyVal
  deriving DecidableEq, Repr

/-- The intraday last-row fields the Scorer reads. -/
structure IntraRow where
  close : PyVal
  vwap : PyVal
  deriving DecidableEq, Repr

/-- The Scorer's result. -/
structure Verdict where
  trend_bullish : Bool
  mom_bullish : Bool
  vol_bullish : Bool
  intra_bullish : Bool
  score : ℕ
  classification : Signal
  deriving DecidableEq, Repr

/-- The chained Python comparison `50 < rsi_val < 70` (line 167): the first
comparison raises on `None` and short-circuits when false. -/
def momCheck (rsi : PyVal) : Except PyErr Bool :=
  match pyLt (.num 50) rsi with
  | .error e => .error e
  | .ok false => .ok false
  | .ok true => pyLt rsi (.num 70)

/-- The rule-of-three Scorer (lines 157-203) as a function of the two last
rows: the three daily categories accumulate the score, the intraday gate is
evaluated, and the banner is `STRONG_BUY` for `score == 3 and intra_bullish`,
`NO_TRADE` for `score <= 1`, `WATCHLIST` otherwise. -/
def scorer (d : DailyRow) (i : IntraRow) : Except PyErr Verdict :=
  match pyGt d.close d.ema50 with
  | .error e => .error e
  | .ok tb =>
    match momCheck d.rsi with
    | .error e => .error e
    | .ok mb =>
      match pyGt d.volume d.volSMA5 with
      | .error e => .error e
      | .ok vb =>
        match pyGt i.close i.vwap with
        | .error e => .error e
        | .ok ib =>
          let score := (if tb then 1 else 0) + (if mb then 1 else 0) +
            (if vb then 1 else 0)
          .ok ⟨tb, mb, vb, ib, score,
            if score = 3 ∧ ib = true then .STRONG_BUY
            else if score ≤ 1 then .NO_TRADE
            else .WATCHLIST⟩

/-- `df.iloc[-1][name]`: `KeyError` for a missing column, `IndexError` on an
empty frame. -/
def lastCell (f : Frame) (name : String) : Except PyErr PyVal :=
  match f.getCol name with
  | .error e => .error e
  | .ok col =>
    match col.getLast? with
    | some x => .ok x
    | none => .error .indexError

/-- The outcome of one "Analyze" click. -/
inductive Outcome where
  | fetchFailure                  -- the "Could not fetch data" error branch
  | pyError (e : PyErr)           -- an uncaught exception in the success path
  | verdictOut (v : Verdict)
  deriving DecidableEq, Repr

/-- The module-scope analysis branch (lines 145-203): a `None` or empty
frame takes the "Could not fetch data" branch; otherwise indicators are
added to both frames and the Scorer runs on the two last rows. -/
def analyze (dDaily dIntra : Option Frame) : Outcome :=
  match dDaily, dIntra with
  | some fd, some fi =>
    if fd.empty || fi.empty then .fetchFailure
    else
      match (do
        let fd' ← add_indicators fd false
        let fi' ← add_indicators fi true
        let dClose ← lastCell fd' "Close"
        let dEma ← lastCell fd' "EMA_50"
        let dRsi ← lastCell fd' "RSI"
        let dVol ← lastCell fd' "Volume"
        let dVolSma ← lastCell fd' "Vol_SMA_5"
        let iClose ← lastCell fi' "Close"
        let iVwap ← lastCell fi' "VWAP"
        scorer ⟨dClose, dEma, dRsi, dVol, dVolSma⟩ ⟨iClose, iVwap⟩ :
          Except PyErr Verdict) with
      | .ok v => .verdictOut v
      | .error e => .pyError e
  | _, _ => .fetchFailure

-- sanity checks of the comparison semantics
example : pyGt (.num 3) (.num 2) = .ok true := by norm_num [pyGt]
example : pyGt .nan (.num 5) = .ok false := by norm_num [pyGt]
example : pyGt (.num 5) .pynone = .error .typeError := by norm_num [pyGt]

/-! ## Scorer-level lemmas -/

theorem pyGt_num_num (x y : ℚ) : pyGt (.num x) (.num y) = .ok (decide (y < x)) := rfl

theorem pyGt_error_eq {a b : PyVal} {e : PyErr} (h : pyGt a b = .error e) :
    e = .typeError := by
  cases a <;> cases b <;> simp_all [pyGt]

theorem pyGt_ok_ne_pynone {a b : PyVal} {r : Bool} (h : pyGt a b = .ok r) :
    a ≠ .pynone ∧ b ≠ .pynone := by
  cases a <;> cases b <;> simp_all [pyGt]

theorem momCheck_num (q : ℚ) :
    momCheck (.num q) = .ok (decide (50 < q) && decide (q < 70)) := by
  by_cases h50 : (50:ℚ) < q <;> simp [momCheck, pyLt, pyGt, h50]

theorem momCheck_nan : momCheck .nan = .ok false := rfl

theorem momCheck_pynone : momCheck .pynone = .error .typeError := rfl

theorem momCheck_error_eq {r : PyVal} {e : PyErr} (h : momCheck r = .error e) :
    e = .typeError := by
  cases r with
  | num q => rw [momCheck_num] at h; cases h
  | nan => rw [momCheck_nan] at h; cases h
  | pynone => rw [momCheck_pynone] at h; exact (Except.error.injEq _ _).mp h.symm

theorem momCheck_ok_ne_pynone {r : PyVal} {b : Bool} (h : momCheck r = .ok b) :
    r ≠ .pynone := by
  cases r <;> simp_all [momCheck_num, momCheck_nan, momCheck_pynone]

/-- Destructuring of a successful Scorer run: the four comparison results and
the shape of the verdict. -/
theorem scorer_ok_iff (d : DailyRow) (i : IntraRow) (v : Verdict) :
    scorer d i = .ok v ↔
      pyGt d.close d.ema50 = .ok v.trend_bullish ∧
      momCheck d.rsi = .ok v.mom_bullish ∧
      pyGt d.volume d.volSMA5 = .ok v.vol_bullish ∧
      pyGt i.close i.vwap = .ok v.intra_bullish ∧
      v.score = (if v.trend_bullish then 1 else 0) +
        (if v.mom_bullish then 1 else 0) + (if v.vol_bullish then 1 else 0) ∧
      v.classification =
        (if v.score = 3 ∧ v.intra_bullish = true then .STRONG_BUY
         else if v.score ≤ 1 then .NO_TRADE else .WATCHLIST) := by
  constructor
  · intro h
    unfold scorer at h
    cases h1 : pyGt d.close d.ema50 with
    | error e => rw [h1] at h; cases h
    | ok tb =>
      rw [h1] at h
      cases h2 : momCheck d.rsi with
      | error e => rw [h2] at h; cases h
      | ok mb =>
        rw [h2] at h
        cases h3 : pyGt d.volume d.volSMA5 with
        | error e => rw [h3] at h; cases h
        | ok vb =>
          rw [h3] at h
          cases h4 : pyGt i.close i.vwap with
          | error e => rw [h4] at h; cases h
          | ok ib =>
            rw [h4] at h
            cases h
            exact ⟨rfl, rfl, rfl, rfl, rfl, rfl⟩
  · rintro ⟨h1, h2, h3, h4, h5, h6⟩
    unfold scorer
    rw [h1, h2, h3, h4]
    cases v
    simp_all

/-- C1: the classification is `STRONG_BUY` exactly for a full score with a
bullish intraday gate, `NO_TRADE` exactly for score at most 1, and
`WATCHLIST` in every remaining case. -/
theorem scorer_classification_cases (d : DailyRow) (i : IntraRow) (v : Verdict)
    (h : scorer d i = .ok v) :
    (v.classification = .STRONG_BUY ↔ v.score = 3 ∧ v.intra_bullish = true) ∧
    (v.classification = .NO_TRADE ↔ v.score ≤ 1) ∧
    (v.classification = .WATCHLIST ↔
      (v.score = 2 ∨ (v.score = 3 ∧ v.intra_bullish = false))) := by
  obtain ⟨-, -, -, -, h5, h6⟩ := (scorer_ok_iff d i v).mp h
  rcases v with ⟨tb, mb, vb, ib, sc, cls⟩
  simp only at h5 h6 ⊢
  rw [h5] at h6
  rw [h6, h5]
  cases tb <;> cases mb <;> cases vb <;> cases ib <;> simp

/-- C1 witness: a concrete run (score 3, bullish gate, `STRONG_BUY`). -/
theorem scorer_classification_cases_witness :
    ((⟨true, true, true, true, 3, .STRONG_BUY⟩ : Verdict).classification
        = .STRONG_BUY ↔
      (⟨true, true, true, true, 3, .STRONG_BUY⟩ : Verdict).score = 3 ∧
      (⟨true, true, true, true, 3, .STRONG_BUY⟩ : Verdict).intra_bullish = true) ∧
    ((⟨true, true, true, true, 3, .STRONG_BUY⟩ : Verdict).classification
        = .NO_TRADE ↔
      (⟨true, true, true, true, 3, .STRONG_BUY⟩ : Verdict).score ≤ 1) ∧
    ((⟨true, true, true, true, 3, .STRONG_BUY⟩ : Verdict).classification
        = .WATCHLIST ↔
      ((⟨true, true, true, true, 3, .STRONG_BUY⟩ : Verdict).score = 2 ∨
       ((⟨true, true, true, true, 3, .STRONG_BUY⟩ : Verdict).score = 3 ∧
        (⟨true, true, true, true, 3, .STRONG_BUY⟩ : Verdict).intra_bullish = false))) :=
  scorer_classification_cases ⟨.num 5, .num 4, .num 60, .num 9, .num 7⟩
    ⟨.num 10, .num 9⟩ _
    (by rw [scorer_ok_iff]; norm_num [pyGt, momCheck, pyLt])

/-- Shared concrete rows for witnesses: an all-bullish daily row and a
bullish intraday row. -/
def dRow0 : DailyRow := ⟨.num 5, .num 4, .num 60, .num 9, .num 7⟩

/-- Shared concrete intraday row. -/
def iRow0 : IntraRow := ⟨.num 10, .num 9⟩

/-- The verdict the Scorer produces on `dRow0`/`iRow0`. -/
def verdict0 : Verdict := ⟨true, true, true, true, 3, .STRONG_BUY⟩

theorem scorer_row0 : scorer dRow0 iRow0 = .ok verdict0 := by
  rw [scorer_ok_iff]
  norm_num [dRow0, iRow0, verdict0, pyGt, momCheck, pyLt]

/-- C2: momentum is bullish exactly for a numeric RSI strictly between 50
and 70; RSI exactly 50 or exactly 70 is not bullish. -/
theorem scorer_momentum_strict (d : DailyRow) (i : IntraRow) (v : Verdict)
    (h : scorer d i = .ok v) :
    (v.mom_bullish = true ↔ ∃ q : ℚ, d.rsi = .num q ∧ 50 < q ∧ q < 70) ∧
    (d.rsi = .num 50 → v.mom_bullish = false) ∧
    (d.rsi = .num 70 → v.mom_bullish = false) := by
  obtain ⟨-, h2, -, -, -, -⟩ := (scorer_ok_iff d i v).mp h
  have hmain : v.mom_bullish = true ↔ ∃ q : ℚ, d.rsi = .num q ∧ 50 < q ∧ q < 70 := by
    cases hr : d.rsi with
    | num q =>
      rw [hr, momCheck_num] at h2
      injection h2 with h2
      simp [← h2, hr]
    | nan =>
      rw [hr, momCheck_nan] at h2
      injection h2 with h2
      simp [← h2, hr]
    | pynone => rw [hr, momCheck_pynone] at h2; cases h2
  refine ⟨hmain, ?_, ?_⟩ <;> intro hr <;>
    · cases hb : v.mom_bullish
      · rfl
      · exfalso
        obtain ⟨q, hq, hlo, hhi⟩ := hmain.mp hb
        rw [hr] at hq
        cases hq
        norm_num at hlo hhi

/-- C2 witness: the theorem applied to the concrete scorer run `scorer_row0`
(RSI 60: momentum bullish). -/
theorem scorer_momentum_strict_witness :
    (verdict0.mom_bullish = true ↔ ∃ q : ℚ, dRow0.rsi = .num q ∧ 50 < q ∧ q < 70) ∧
    (dRow0.rsi = .num 50 → verdict0.mom_bullish = false) ∧
    (dRow0.rsi = .num 70 → verdict0.mom_bullish = false) :=
  scorer_momentum_strict dRow0 iRow0 verdict0 scorer_row0

/-- C3: the score is the count of the three bullish daily categories, lies
in `0..3`, and does not depend on the intraday row. -/
theorem scorer_score_count (d : DailyRow) (i i' : IntraRow) (v v' : Verdict)
    (h : scorer d i = .ok v) (h' : scorer d i' = .ok v') :
    v.score = (if v.trend_bullish then 1 else 0) + (if v.mom_bullish then 1 else 0)
      + (if v.vol_bullish then 1 else 0) ∧
    v.score ≤ 3 ∧ v'.score = v.score := by
  obtain ⟨g1, g2, g3, -, h5, -⟩ := (scorer_ok_iff d i v).mp h
  obtain ⟨g1', g2', g3', -, h5', -⟩ := (scorer_ok_iff d i' v').mp h'
  refine ⟨h5, ?_, ?_⟩
  · rw [h5]
    cases v.trend_bullish <;> cases v.mom_bullish <;> cases v.vol_bullish <;> simp
  · rw [h5, h5']
    rw [g1] at g1'; rw [g2] at g2'; rw [g3] at g3'
    injection g1' with e1; injection g2' with e2; injection g3' with e3
    rw [e1, e2, e3]

/-- C3 witness: the theorem applied to the concrete run `scorer_row0`,
with the same daily row against two different intraday rows. -/
theorem scorer_score_count_witness :
    (verdict0.score = (if verdict0.trend_bullish then 1 else 0) +
      (if verdict0.mom_bullish then 1 else 0) +
      (if verdict0.vol_bullish then 1 else 0)) ∧
    verdict0.score ≤ 3 ∧
    (⟨true, true, true, false, 3, .WATCHLIST⟩ : Verdict).score = verdict0.score :=
  scorer_score_count dRow0 iRow0 ⟨.num 9, .num 11⟩ verdict0
    ⟨true, true, true, false, 3, .WATCHLIST⟩ scorer_row0
    (by rw [scorer_ok_iff]; norm_num [dRow0, pyGt, momCheck, pyLt])

/-- Any error the Scorer raises is the comparison `TypeError`. -/
theorem scorer_error_only_typeError {d : DailyRow} {i : IntraRow} {e : PyErr}
    (h : scorer d i = .error e) : e = .typeError := by
  unfold scorer at h
  cases h1 : pyGt d.close d.ema50 with
  | error e1 => rw [h1] at h; injection h with h; rw [← h]; exact pyGt_error_eq h1
  | ok tb =>
    rw [h1] at h
    cases h2 : momCheck d.rsi with
    | error e2 => rw [h2] at h; injection h with h; rw [← h]; exact momCheck_error_eq h2
    | ok mb =>
      rw [h2] at h
      cases h3 : pyGt d.volume d.volSMA5 with
      | error e3 => rw [h3] at h; injection h with h; rw [← h]; exact pyGt_error_eq h3
      | ok vb =>
        rw [h3] at h
        cases h4 : pyGt i.close i.vwap with
        | error e4 => rw [h4] at h; injection h with h; rw [← h]; exact pyGt_error_eq h4
        | ok ib => rw [h4] at h; cases h

/-- C5 (amended): when any field the Scorer needs is the `None` object in
the latest row - as happens to `EMA_50`, `RSI`, `SMA_50` or `Vol_SMA_5`
whenever the corresponding `pandas_ta` call returned `None` for a too-short
series - the Scorer raises a `TypeError` before producing any verdict. -/
theorem scorer_pynone_raises (d : DailyRow) (i : IntraRow)
    (h : d.close = .pynone ∨ d.ema50 = .pynone ∨ d.rsi = .pynone ∨
      d.volume = .pynone ∨ d.volSMA5 = .pynone ∨ i.close = .pynone ∨
      i.vwap = .pynone) :
    scorer d i = .error .typeError := by
  cases hs : scorer d i with
  | error e => rw [scorer_error_only_typeError hs]
  | ok v =>
    exfalso
    obtain ⟨g1, g2, g3, g4, -, -⟩ := (scorer_ok_iff d i v).mp hs
    obtain ⟨n1, n2⟩ := pyGt_ok_ne_pynone g1
    have n3 := momCheck_ok_ne_pynone g2
    obtain ⟨n4, n5⟩ := pyGt_ok_ne_pynone g3
    obtain ⟨n6, n7⟩ := pyGt_ok_ne_pynone g4
    rcases h with h|h|h|h|h|h|h <;> simp_all

/-- C5 witness: a daily row whose `EMA_50` is the `None` object (e.g. from a
49-row daily series) makes the Scorer raise. -/
theorem scorer_pynone_raises_witness :
    scorer ⟨.num 5, .pynone, .num 60, .num 9, .num 7⟩ iRow0 = .error .typeError :=
  scorer_pynone_raises ⟨.num 5, .pynone, .num 60, .num 9, .num 7⟩ iRow0
    (Or.inr (Or.inl rfl))

/-! ## Column bookkeeping lemmas -/

theorem lookup_setColAux (cols : List (String × List PyVal)) (n k : String)
    (vs : List PyVal) :
    List.lookup k (Frame.setColAux cols n vs) =
      if k = n then some vs else List.lookup k cols := by
  induction cols with
  | nil =>
    by_cases hk : k = n
    · simp [Frame.setColAux, List.lookup, hk, beq_self_eq_true]
    · simp [Frame.setColAux, List.lookup, hk, beq_eq_false_iff_ne.mpr hk]
  | cons p rest ih =>
    obtain ⟨pn, pc⟩ := p
    by_cases hpn : pn = n
    · subst hpn
      by_cases hk : k = pn
      · simp [Frame.setColAux, List.lookup, hk, beq_self_eq_true]
      · simp [Frame.setColAux, List.lookup, hk, beq_eq_false_iff_ne.mpr hk]
    · by_cases hk : k = pn
      · subst hk
        simp [Frame.setColAux, List.lookup, hpn, Ne.symm hpn, beq_self_eq_true]
      · simp [Frame.setColAux, List.lookup, hpn, hk, beq_eq_false_iff_ne.mpr hk, ih]

theorem setCol_index (f : Frame) (n : String) (vs : List PyVal) :
    (f.setCol n vs).index = f.index := rfl

theorem lookup_setCol (f : Frame) (n k : String) (vs : List PyVal) :
    (f.setCol n vs).cols.lookup k =
      if k = n then some vs else f.cols.lookup k := by
  simp [Frame.setCol, lookup_setColAux]

theorem getCol_setCol_ne (f : Frame) (n k : String) (vs : List PyVal)
    (h : k ≠ n) : (f.setCol n vs).getCol k = f.getCol k := by
  simp [Frame.getCol, lookup_setCol, h]

/-- Master bookkeeping lemma for a successful `add_indicators` run: the row
index is unchanged, and the lookup of any key that is not one of the written
indicator keys (`VWAP` counts as written only in intraday mode) is
unchanged. -/
theorem add_indicators_ok_master (df : Frame) (b : Bool) (g : Frame)
    (h : add_indicators df b = .ok g) (key : String)
    (h1 : key ≠ "SMA_50") (h2 : key ≠ "EMA_50") (h3 : key ≠ "Supertrend")
    (h4 : key ≠ "RSI") (h5 : key ≠ "MACD") (h6 : key ≠ "MACD_Signal")
    (h7 : key ≠ "BB_Upper") (h8 : key ≠ "BB_Lower") (h9 : key ≠ "Vol_SMA_5")
    (h10 : key ≠ "VWAP" ∨ b = false) :
    g.index = df.index ∧ g.cols.lookup key = df.cols.lookup key := by
  simp only [add_indicators] at h
  repeat' split at h
  all_goals cases h
  all_goals constructor
  all_goals simp_all [lookup_setColAux, lookup_setCol, Frame.setCol]

/-! ## Structural lemmas about the indicator formulas -/

theorem allNums_replicate_num (k : ℕ) (q : ℚ) :
    allNums (List.replicate k (.num q)) = some (List.replicate k q) := by
  induction k with
  | zero => rfl
  | succ m ih => simp [List.replicate_succ, allNums, PyVal.toOpt, ih]

theorem filterMap_toOpt_map_num (xs : List ℚ) :
    (xs.map PyVal.num).filterMap toOpt = xs := by
  induction xs with
  | nil => rfl
  | cons x rest ih => simp [List.filterMap_cons, PyVal.toOpt, ih]

theorem skipnaMean_map_num (xs : List ℚ) (h : xs ≠ []) :
    skipnaMean (xs.map .num) = .num (xs.sum / (xs.length : ℚ)) := by
  rw [skipnaMean, filterMap_toOpt_map_num]
  simp [List.length_eq_zero, h]

theorem rollingMean_replicate (q : ℚ) (n len : ℕ) (hlen : 0 < len) :
    rollingMean (List.replicate n (.num q)) len =
      (List.range n).map fun i => if i + 1 < len then .nan else .num q := by
  unfold rollingMean
  rw [List.length_replicate]
  refine List.map_congr_left fun i hi => ?_
  rw [List.mem_range] at hi
  by_cases hw : i + 1 < len
  · simp [hw]
  · rw [if_neg hw, if_neg hw]
    rw [List.take_replicate, List.drop_replicate]
    have h1 : min (i+1) n = i + 1 := by omega
    have h2 : i + 1 - (i + 1 - len) = len := by omega
    rw [h1, h2, allNums_replicate_num]
    have h3 : (List.replicate len q).sum = (len : ℚ) * q := by
      rw [List.sum_replicate, nsmul_eq_mul]
    have h4 : ((len : ℚ)) ≠ 0 := by positivity
    simp only [h3, mul_div_cancel_left₀ _ h4]

theorem ewmAdjFalse_nan_lead (a : ℚ) (k g : ℕ) (rest : List PyVal) :
    ewmAdjFalse a none g (List.replicate k .nan ++ rest) =
      List.replicate k .nan ++ ewmAdjFalse a none (g + k) rest := by
  induction k generalizing g with
  | zero => simp
  | succ m ih =>
    rw [show ewmAdjFalse a none g (List.replicate (m+1) .nan ++ rest) =
      .nan :: ewmAdjFalse a none (g+1) (List.replicate m .nan ++ rest) from rfl]
    rw [ih (g+1)]
    have hg : g + 1 + m = g + (m + 1) := by omega
    rw [hg, List.replicate_succ, List.cons_append]

theorem ewmAdjFalse_none_cons_num (a q : ℚ) (g : ℕ) (rest : List PyVal) :
    ewmAdjFalse a none g (.num q :: rest) =
      .num q :: ewmAdjFalse a (some q) 0 rest := rfl

theorem ewmAdjFalse_const_run (a q : ℚ) (m : ℕ) :
    ewmAdjFalse a (some q) 0 (List.replicate m (.num q)) =
      List.replicate m (.num q) := by
  induction m with
  | zero => rfl
  | succ k ih =>
    rw [List.replicate_succ]
    have hv : ((1 - a)^(0+1)*q + a*q)/((1 - a)^(0+1) + a) = q := by
      rw [pow_one]
      have : (1 - a) + a = 1 := by ring
      rw [show (1 - a)*q + a*q = ((1-a) + a) * q by ring, this]
      simp
    rw [show ewmAdjFalse a (some q) 0 (.num q :: List.replicate k (.num q)) =
      .num (((1 - a)^(0+1)*q + a*q)/((1 - a)^(0+1) + a)) ::
        ewmAdjFalse a (some (((1 - a)^(0+1)*q + a*q)/((1 - a)^(0+1) + a))) 0
          (List.replicate k (.num q)) from rfl]
    rw [hv, ih]

theorem ta_ema_replicate (q : ℚ) (n len : ℕ) (h1 : 0 < len) (h2 : len ≤ n) :
    ta_ema (List.replicate n (.num q)) len =
      some (List.replicate (len-1) .nan ++ List.replicate (n-len+1) (.num q)) := by
  simp only [ta_ema]
  rw [List.length_replicate, if_neg (by omega)]
  rw [List.take_replicate, List.drop_replicate, min_eq_left h2]
  have h4 : ((len : ℚ)) ≠ 0 := by positivity
  have hmean : skipnaMean (List.replicate len (.num q)) = .num q := by
    rw [show (List.replicate len (PyVal.num q)) = (List.replicate len q).map .num by
      simp [List.map_replicate]]
    rw [skipnaMean_map_num _ (by
      intro hq
      have := congrArg List.length hq
      simp at this
      omega)]
    rw [List.sum_replicate, nsmul_eq_mul, List.length_replicate,
      mul_div_cancel_left₀ _ h4]
  rw [hmean]
  rw [ewmAdjFalse_nan_lead, ewmAdjFalse_none_cons_num, ewmAdjFalse_const_run]
  rw [show (PyVal.num q :: List.replicate (n - len) (PyVal.num q)) =
    List.replicate (n - len + 1) (.num q) from (List.replicate_succ _ _).symm]

theorem pyDiff_replicate (q : ℚ) (m : ℕ) :
    pyDiff (List.replicate (m+1) (.num q)) =
      .nan :: List.replicate m (.num 0) := by
  unfold pyDiff
  rw [List.length_replicate, List.range_succ_eq_map, List.map_cons, List.map_map]
  congr 1
  have : ∀ j ∈ List.range m,
      ((fun i => match i with
        | 0 => PyVal.nan
        | j+1 => pySub ((List.replicate (m+1) (PyVal.num q)).getD (j+1) PyVal.nan)
            ((List.replicate (m+1) (PyVal.num q)).getD j PyVal.nan)) ∘ Nat.succ) j
        = PyVal.num 0 := by
    intro j hj
    rw [List.mem_range] at hj
    have e1 : (List.replicate (m+1) (PyVal.num q)).getD (j+1) PyVal.nan = .num q := by
      rw [List.getD_eq_getElem?_getD, List.getElem?_replicate, if_pos (by omega)]
      rfl
    have e2 : (List.replicate (m+1) (PyVal.num q)).getD j PyVal.nan = .num q := by
      rw [List.getD_eq_getElem?_getD, List.getElem?_replicate, if_pos (by omega)]
      rfl
    show pySub ((List.replicate (m+1) (PyVal.num q)).getD (j+1) PyVal.nan)
        ((List.replicate (m+1) (PyVal.num q)).getD j PyVal.nan) = PyVal.num 0
    rw [e1, e2]
    simp [pySub]
  rw [List.map_congr_left this]
  simp [List.map_const']

theorem clampPos_nan_cons_zero (m : ℕ) :
    (PyVal.nan :: List.replicate m (.num 0)).map clampPos =
      .nan :: List.replicate m (.num 0) := by
  simp [clampPos, List.map_replicate]

theorem clampNeg_nan_cons_zero (m : ℕ) :
    (PyVal.nan :: List.replicate m (.num 0)).map clampNeg =
      .nan :: List.replicate m (.num 0) := by
  simp [clampNeg, List.map_replicate]

/-- The two smoothed zero columns of a constant series combine to NaN
everywhere (`0.0/0.0`). -/
theorem rsiCombine_zero_run (a : ℚ) (minp : ℕ) (m : ℕ) :
    ∀ (t₁ t₂ : ℚ) (c : ℕ),
      List.zipWith rsiCombine (ewmAdjTrue a minp 0 t₁ c (List.replicate m (.num 0)))
        (ewmAdjTrue a minp 0 t₂ c (List.replicate m (.num 0))) =
      List.replicate m .nan := by
  induction m with
  | zero => intro t₁ t₂ c; rfl
  | succ k ih =>
    intro t₁ t₂ c
    rw [List.replicate_succ]
    rw [show ewmAdjTrue a minp 0 t₁ c (.num 0 :: List.replicate k (.num 0)) =
      (if minp ≤ c+1 then PyVal.num (((1-a)*0 + 0)/((1-a)*t₁ + 1)) else PyVal.nan) ::
        ewmAdjTrue a minp ((1-a)*0 + 0) ((1-a)*t₁ + 1) (c+1)
          (List.replicate k (.num 0)) from rfl]
    rw [show ewmAdjTrue a minp 0 t₂ c (.num 0 :: List.replicate k (.num 0)) =
      (if minp ≤ c+1 then PyVal.num (((1-a)*0 + 0)/((1-a)*t₂ + 1)) else PyVal.nan) ::
        ewmAdjTrue a minp ((1-a)*0 + 0) ((1-a)*t₂ + 1) (c+1)
          (List.replicate k (.num 0)) from rfl]
    rw [show (1-a)*0 + (0:ℚ) = 0 by ring]
    rw [List.zipWith_cons_cons, ih ((1-a)*t₁ + 1) ((1-a)*t₂ + 1) (c+1),
      List.replicate_succ]
    congr 1
    by_cases hc : minp ≤ c + 1
    · simp [hc, rsiCombine, zero_div]
    · simp [hc, rsiCombine]

/-- RSI of a constant series: the whole column is NaN. -/
theorem ta_rsi_replicate (q : ℚ) (n len : ℕ) (h1 : len ≤ n) (h2 : 0 < n) :
    ta_rsi (List.replicate n (.num q)) len = some (List.replicate n .nan) := by
  simp only [ta_rsi]
  rw [List.length_replicate, if_neg (by omega)]
  obtain ⟨m, rfl⟩ : ∃ m, n = m + 1 := ⟨n-1, by omega⟩
  rw [pyDiff_replicate, clampPos_nan_cons_zero, clampNeg_nan_cons_zero]
  rw [show ewmAdjTrue (1/(len : ℚ)) len 0 0 0 (.nan :: List.replicate m (.num 0)) =
    (if len ≤ 0 ∧ 0 < 0 then PyVal.num (0/0) else PyVal.nan) ::
      ewmAdjTrue (1/(len : ℚ)) len ((1-(1/(len : ℚ)))*0) ((1-(1/(len : ℚ)))*0) 0
        (List.replicate m (.num 0)) from rfl]
  rw [show (1-(1/(len : ℚ)))*0 = 0 by ring]
  rw [if_neg (by omega)]
  rw [List.zipWith_cons_cons, rsiCombine_zero_run, List.replicate_succ]
  simp [rsiCombine]

/-! ## Size gates (the `verify_series` behavior of each indicator) -/

theorem ta_sma_lt {close : List PyVal} {len : ℕ} (h : close.length < len) :
    ta_sma close len = none := by simp [ta_sma, h]

theorem ta_sma_ge {close : List PyVal} {len : ℕ} (h : ¬ close.length < len) :
    ta_sma close len = some (rollingMean close len) := by simp [ta_sma, h]

theorem ta_ema_lt {close : List PyVal} {len : ℕ} (h : close.length < len) :
    ta_ema close len = none := by simp [ta_ema, h]

theorem ta_rsi_lt {close : List PyVal} {len : ℕ} (h : close.length < len) :
    ta_rsi close len = none := by simp [ta_rsi, h]

theorem ta_macd_lt {close : List PyVal} (h : close.length < 26) :
    ta_macd close = .ok none := by
  simp only [ta_macd]
  rw [if_pos h]

theorem ta_bbands_lt {close : List PyVal} {len : ℕ} (h : close.length < len) :
    ta_bbands close len = none := by simp [ta_bbands, h]

theorem ta_bbands_ge {close : List PyVal} {len : ℕ} (h : ¬ close.length < len) :
    ∃ u lo, ta_bbands close len = some (u, lo) := by
  simp only [ta_bbands]
  rw [if_neg h]
  exact ⟨_, _, rfl⟩

theorem ta_supertrend_lt {high low close : List PyVal} {len : ℕ} {mult : ℚ}
    (h : high.length < len) : ta_supertrend high low close len mult = none := by
  simp only [ta_supertrend]
  rw [if_pos h]

theorem ta_supertrend_ge {high low close : List PyVal} {len : ℕ} {mult : ℚ}
    (h : ¬ high.length < len) :
    ∃ col, ta_supertrend high low close len mult = some col := by
  simp only [ta_supertrend]
  rw [if_neg h]
  split
  · split
    · exact ⟨_, rfl⟩
    · exact ⟨_, rfl⟩
  · exact ⟨_, rfl⟩

/-! ## Shape of `ta_ema` on all-numeric input -/

theorem ewmAdjFalse_num_run (a : ℚ) (xs : List ℚ) :
    ∀ y0 : ℚ, ∃ ys : List ℚ,
      ewmAdjFalse a (some y0) 0 (xs.map .num) = ys.map .num ∧
      ys.length = xs.length := by
  induction xs with
  | nil => exact fun y0 => ⟨[], rfl, rfl⟩
  | cons x rest ih =>
    intro y0
    obtain ⟨ys, hys, hlen⟩ := ih (((1-a)^(0+1)*y0 + a*x)/((1-a)^(0+1) + a))
    refine ⟨((1-a)^(0+1)*y0 + a*x)/((1-a)^(0+1) + a) :: ys, ?_, by simp [hlen]⟩
    rw [List.map_cons, List.map_cons]
    rw [show ewmAdjFalse a (some y0) 0 (.num x :: rest.map .num) =
      .num (((1-a)^(0+1)*y0 + a*x)/((1-a)^(0+1) + a)) ::
        ewmAdjFalse a (some (((1-a)^(0+1)*y0 + a*x)/((1-a)^(0+1) + a))) 0
          (rest.map .num) from rfl]
    rw [hys]

theorem ta_ema_map_num (xs : List ℚ) (len : ℕ) (h1 : 0 < len)
    (h2 : len ≤ xs.length) :
    ∃ ys : List ℚ, ta_ema (xs.map .num) len =
      some (List.replicate (len-1) .nan ++ ys.map .num) ∧
      ys.length = xs.length - len + 1 := by
  simp only [ta_ema]
  rw [List.length_map, if_neg (by omega)]
  rw [← List.map_take, ← List.map_drop]
  rw [skipnaMean_map_num _ (List.length_pos.mp (by rw [List.length_take]; omega))]
  obtain ⟨ys, hys, hlen⟩ :=
    ewmAdjFalse_num_run (2/((len : ℚ)+1)) (xs.drop len)
      ((xs.take len).sum / ((xs.take len).length : ℚ))
  refine ⟨(xs.take len).sum / ((xs.take len).length : ℚ) :: ys, ?_, by
    simp [hlen]⟩
  rw [ewmAdjFalse_nan_lead, ewmAdjFalse_none_cons_num, hys, List.map_cons]

/-- C8 index characterization: in `nan^k ++ (map num ys)` an entry is
numeric exactly from index `k` on. -/
theorem isNum_rep_nan_append_map_num (k : ℕ) (ys : List ℚ) (i : ℕ)
    (h : i < (List.replicate k PyVal.nan ++ ys.map PyVal.num).length) :
    ((List.replicate k PyVal.nan ++ ys.map PyVal.num).get ⟨i, h⟩).isNum = true ↔
      k ≤ i := by
  rw [List.get_eq_getElem]
  by_cases hik : i < k
  · rw [List.getElem_append_left (by simpa using hik)]
    simp [List.getElem_replicate, PyVal.isNum]
    omega
  · rw [List.getElem_append_right (by simpa using hik)]
    simp only [List.getElem_map, PyVal.isNum]
    simp
    omega

/-! ## Shape of the MACD line and the short-series `TypeError` -/

theorem zipWith_pySub_nan_nan (k : ℕ) :
    List.zipWith pySub (List.replicate k PyVal.nan) (List.replicate k PyVal.nan) =
      List.replicate k PyVal.nan := by
  induction k with
  | zero => rfl
  | succ m ih => simp [List.replicate_succ, pySub, ih]

theorem zipWith_pySub_num_nan (l : List ℚ) (k : ℕ) :
    List.zipWith pySub (l.map PyVal.num) (List.replicate k PyVal.nan) =
      List.replicate (min l.length k) PyVal.nan := by
  induction l generalizing k with
  | nil => simp
  | cons x rest ih =>
    cases k with
    | zero => simp
    | succ m =>
      rw [List.map_cons, List.replicate_succ, List.zipWith_cons_cons, ih]
      rw [show pySub (.num x) .nan = .nan from rfl]
      simp [List.replicate_succ, Nat.succ_min_succ]

theorem zipWith_pySub_num_num (u v : List ℚ) :
    List.zipWith pySub (u.map PyVal.num) (v.map PyVal.num) =
      (List.zipWith (fun x y => x - y) u v).map PyVal.num := by
  induction u generalizing v with
  | nil => simp
  | cons x rest ih =>
    cases v with
    | nil => simp
    | cons y vrest => simp [pySub, ih]

theorem findIdx_isNum_rep_nan_append (b : ℕ) (l : List PyVal) :
    (List.replicate b PyVal.nan ++ l).findIdx isNum = b + l.findIdx isNum := by
  induction b with
  | zero => simp
  | succ m ih =>
    rw [List.replicate_succ, List.cons_append, List.findIdx_cons]
    rw [show isNum PyVal.nan = false from rfl]
    simp only [cond_false, ih]
    omega

/-- The MACD line `ema12 - ema26` of an all-numeric series:
`nan^25 ++ (numeric of length n-25)`. -/
theorem macdLine_shape (n : ℕ) (u v : List ℚ) (h : 26 ≤ n)
    (hul : u.length = n - 11) (hvl : v.length = n - 25) :
    ∃ w : List ℚ,
      List.zipWith pySub (List.replicate 11 PyVal.nan ++ u.map PyVal.num)
        (List.replicate 25 PyVal.nan ++ v.map PyVal.num) =
      List.replicate 25 PyVal.nan ++ w.map PyVal.num ∧
      w.length = n - 25 := by
  refine ⟨List.zipWith (fun x y => x - y) (u.drop 14) v, ?_, ?_⟩
  · have e1 : (List.replicate 11 PyVal.nan ++ u.map PyVal.num) =
        (List.replicate 11 PyVal.nan ++ (u.take 14).map PyVal.num) ++
          (u.drop 14).map PyVal.num := by
      rw [List.append_assoc, ← List.map_append, List.take_append_drop]
    have e2 : (List.replicate 25 PyVal.nan ++ v.map PyVal.num) =
        (List.replicate 11 PyVal.nan ++ List.replicate 14 PyVal.nan) ++
          v.map PyVal.num := by
      rw [← List.replicate_add]
    rw [e1, e2]
    rw [List.zipWith_append _ _ _ _ _ (by
      simp only [List.length_append, List.length_replicate, List.length_map,
        List.length_take]
      omega)]
    rw [List.zipWith_append _ _ _ _ _ (by simp)]
    rw [zipWith_pySub_nan_nan, zipWith_pySub_num_nan, zipWith_pySub_num_num]
    rw [show min (u.take 14).length 14 = 14 from by
      simp [List.length_take]; omega]
    rw [← List.replicate_add]
  · simp only [List.length_zipWith, List.length_drop]
    omega

/-- The `25`-entry drop that selects `macd.loc[first_valid_index():]`. -/
theorem drop_25_rep_nan (l : List PyVal) :
    List.drop 25 (List.replicate 25 PyVal.nan ++ l) = l := by
  have := List.drop_left (List.replicate 25 PyVal.nan) l
  simpa using this

/-- `ta.macd` succeeds on an all-numeric series of at least 34 rows. -/
theorem ta_macd_map_num_ok (xs : List ℚ) (h : 34 ≤ xs.length) :
    ∃ mcol scol, ta_macd (xs.map PyVal.num) = .ok (some (mcol, scol)) := by
  obtain ⟨u, hu, hul⟩ := ta_ema_map_num xs 12 (by omega) (by omega)
  obtain ⟨v, hv, hvl⟩ := ta_ema_map_num xs 26 (by omega) (by omega)
  rw [show (12 - 1 : ℕ) = 11 from rfl] at hu
  rw [show (26 - 1 : ℕ) = 25 from rfl] at hv
  obtain ⟨w, hw, hwl⟩ := macdLine_shape xs.length u v (by omega)
    (by omega) (by omega)
  simp only [ta_macd]
  rw [List.length_map, if_neg (by omega), hu, hv]
  simp only []
  rw [hw]
  have hwne : w ≠ [] := List.length_pos.mp (by omega)
  obtain ⟨w0, wrest, rfl⟩ := List.exists_cons_of_ne_nil hwne
  rw [List.map_cons, findIdx_isNum_rep_nan_append, List.findIdx_cons]
  rw [show isNum (PyVal.num w0) = true from rfl]
  simp only [cond_true, Nat.add_zero]
  rw [if_neg (by
    simp only [List.length_append, List.length_replicate, List.length_cons,
      List.length_map]
    omega)]
  rw [show (PyVal.num w0 :: List.map PyVal.num wrest) =
    List.map PyVal.num (w0 :: wrest) from rfl]
  rw [drop_25_rep_nan]
  obtain ⟨ys, hys, hysl⟩ := ta_ema_map_num (w0 :: wrest) 9 (by omega) (by
    simp only [List.length_cons] at hwl ⊢
    omega)
  rw [hys]
  exact ⟨_, _, rfl⟩

/-- `ta.macd` raises a `TypeError` on an all-numeric series of 26 to 33
rows (`histogram = macd - None`). -/
theorem ta_macd_map_num_err (xs : List ℚ) (h1 : 26 ≤ xs.length)
    (h2 : xs.length ≤ 33) :
    ta_macd (xs.map PyVal.num) = .error .typeError := by
  obtain ⟨u, hu, hul⟩ := ta_ema_map_num xs 12 (by omega) (by omega)
  obtain ⟨v, hv, hvl⟩ := ta_ema_map_num xs 26 (by omega) (by omega)
  rw [show (12 - 1 : ℕ) = 11 from rfl] at hu
  rw [show (26 - 1 : ℕ) = 25 from rfl] at hv
  obtain ⟨w, hw, hwl⟩ := macdLine_shape xs.length u v (by omega)
    (by omega) (by omega)
  simp only [ta_macd]
  rw [List.length_map, if_neg (by omega), hu, hv]
  simp only []
  rw [hw]
  have hwne : w ≠ [] := List.length_pos.mp (by omega)
  obtain ⟨w0, wrest, rfl⟩ := List.exists_cons_of_ne_nil hwne
  rw [List.map_cons, findIdx_isNum_rep_nan_append, List.findIdx_cons]
  rw [show isNum (PyVal.num w0) = true from rfl]
  simp only [cond_true, Nat.add_zero]
  rw [if_neg (by
    simp only [List.length_append, List.length_replicate, List.length_cons,
      List.length_map]
    omega)]
  rw [show (PyVal.num w0 :: List.map PyVal.num wrest) =
    List.map PyVal.num (w0 :: wrest) from rfl]
  rw [drop_25_rep_nan]
  rw [ta_ema_lt (by
    simp only [List.length_map, List.length_cons] at hwl ⊢
    omega)]

/-! ## `add_indicators` on a normalized frame -/

theorem false_eq_true_false : (false = true) = False := by simp

theorem mkFrame_getCol_Close (rows : List Candle) :
    (mkFrame rows).getCol "Close" = .ok ((rows.map Candle.c).map PyVal.num) := by
  simp [mkFrame, Frame.getCol, List.lookup]

theorem mkFrame_getCol_High (rows : List Candle) :
    (mkFrame rows).getCol "High" = .ok ((rows.map Candle.h).map PyVal.num) := by
  simp [mkFrame, Frame.getCol, List.lookup]

theorem mkFrame_getCol_Low (rows : List Candle) :
    (mkFrame rows).getCol "Low" = .ok ((rows.map Candle.l).map PyVal.num) := by
  simp [mkFrame, Frame.getCol, List.lookup]

theorem mkFrame_getCol_Volume (rows : List Candle) :
    (mkFrame rows).getCol "Volume" = .ok ((rows.map Candle.v).map PyVal.num) := by
  simp [mkFrame, Frame.getCol, List.lookup]

/-- Characterization of a daily (`is_intraday = false`) Indicator Engine run
on a normalized frame, away from the 26..33-row `ta.macd` crash window:
the run succeeds, the always-assigned keys hold the (possibly `None`-filled)
`pandas_ta` results, and each guarded key is present exactly when its
series was long enough.  No `VWAP` key is ever present. -/
theorem add_indicators_mkFrame (candles : List Candle)
    (hn : candles.length < 26 ∨ 34 ≤ candles.length) :
    ∃ g, add_indicators (mkFrame candles) false = .ok g ∧
      g.index = candles.map Candle.ts ∧
      g.cols.lookup "Close" = some ((candles.map Candle.c).map PyVal.num) ∧
      g.cols.lookup "Volume" = some ((candles.map Candle.v).map PyVal.num) ∧
      g.cols.lookup "SMA_50" =
        some (colOfOpt candles.length (ta_sma ((candles.map Candle.c).map PyVal.num) 50)) ∧
      g.cols.lookup "EMA_50" =
        some (colOfOpt candles.length (ta_ema ((candles.map Candle.c).map PyVal.num) 50)) ∧
      g.cols.lookup "RSI" =
        some (colOfOpt candles.length (ta_rsi ((candles.map Candle.c).map PyVal.num) 14)) ∧
      g.cols.lookup "Vol_SMA_5" =
        some (colOfOpt candles.length (ta_sma ((candles.map Candle.v).map PyVal.num) 5)) ∧
      (g.cols.lookup "Supertrend" ≠ none ↔ 10 ≤ candles.length) ∧
      (g.cols.lookup "MACD" ≠ none ↔ 26 ≤ candles.length) ∧
      (g.cols.lookup "MACD_Signal" ≠ none ↔ 26 ≤ candles.length) ∧
      (g.cols.lookup "BB_Upper" ≠ none ↔ 20 ≤ candles.length) ∧
      (g.cols.lookup "BB_Lower" ≠ none ↔ 20 ≤ candles.length) ∧
      g.cols.lookup "VWAP" = none := by
  have hC := mkFrame_getCol_Close candles
  have hH := mkFrame_getCol_High candles
  have hL := mkFrame_getCol_Low candles
  have hV := mkFrame_getCol_Volume candles
  rcases hn with hn | hn
  · have hmacd : ta_macd ((candles.map Candle.c).map PyVal.num) = .ok none :=
      ta_macd_lt (by simp only [List.length_map]; omega)
    by_cases h10 : candles.length < 10
    · have hst : ta_supertrend ((candles.map Candle.h).map PyVal.num)
          ((candles.map Candle.l).map PyVal.num)
          ((candles.map Candle.c).map PyVal.num) 10 3 = none :=
        ta_supertrend_lt (by simp only [List.length_map]; omega)
      have hbb : ta_bbands ((candles.map Candle.c).map PyVal.num) 20 = none :=
        ta_bbands_lt (by simp only [List.length_map]; omega)
      refine ⟨?_, ?_, ?_⟩
      rotate_left
      · simp only [add_indicators]
        rw [hC]; simp only []
        rw [getCol_setCol_ne _ "EMA_50" "High" _ (by decide),
          getCol_setCol_ne _ "SMA_50" "High" _ (by decide), hH]
        simp only []
        rw [getCol_setCol_ne _ "EMA_50" "Low" _ (by decide),
          getCol_setCol_ne _ "SMA_50" "Low" _ (by decide), hL]
        simp only []
        rw [hst]; simp only []
        rw [hmacd]; simp only []
        rw [hbb]; simp only []
        rw [getCol_setCol_ne _ "RSI" "Volume" _ (by decide),
          getCol_setCol_ne _ "EMA_50" "Volume" _ (by decide),
          getCol_setCol_ne _ "SMA_50" "Volume" _ (by decide)
          , hV]
        simp only []
        rw [if_neg (by decide : ¬ (false = true))]
        exact rfl
      refine ⟨?_, ?_, ?_, ?_, ?_, ?_, ?_, ?_, ?_, ?_, ?_, ?_, ?_⟩
      all_goals try simp [setCol_index, lookup_setCol, mkFrame, List.lookup, colOfOpt]
      all_goals try omega
    · by_cases h20 : candles.length < 20
      · obtain ⟨st, hst⟩ := @ta_supertrend_ge ((candles.map Candle.h).map PyVal.num)
          ((candles.map Candle.l).map PyVal.num)
          ((candles.map Candle.c).map PyVal.num) 10 3
          (by simp only [List.length_map]; omega)
        have hbb : ta_bbands ((candles.map Candle.c).map PyVal.num) 20 = none :=
          ta_bbands_lt (by simp only [List.length_map]; omega)
        refine ⟨?_, ?_, ?_⟩
        rotate_left
        · simp only [add_indicators]
          rw [hC]; simp only []
          rw [getCol_setCol_ne _ "EMA_50" "High" _ (by decide),
            getCol_setCol_ne _ "SMA_50" "High" _ (by decide), hH]
          simp only []
          rw [getCol_setCol_ne _ "EMA_50" "Low" _ (by decide),
            getCol_setCol_ne _ "SMA_50" "Low" _ (by decide), hL]
          simp only []
          rw [hst]; simp only []
          rw [hmacd]; simp only []
          rw [hbb]; simp only []
          rw [getCol_setCol_ne _ "RSI" "Volume" _ (by decide),
            getCol_setCol_ne _ "Supertrend" "Volume" _ (by decide),
            getCol_setCol_ne _ "EMA_50" "Volume" _ (by decide),
            getCol_setCol_ne _ "SMA_50" "Volume" _ (by decide)
            , hV]
          simp only []
          rw [if_neg (by decide : ¬ (false = true))]
          exact rfl
        refine ⟨?_, ?_, ?_, ?_, ?_, ?_, ?_, ?_, ?_, ?_, ?_, ?_, ?_⟩
        all_goals try simp [setCol_index, lookup_setCol, mkFrame, List.lookup, colOfOpt]
        all_goals try omega
      · obtain ⟨st, hst⟩ := @ta_supertrend_ge ((candles.map Candle.h).map PyVal.num)
          ((candles.map Candle.l).map PyVal.num)
          ((candles.map Candle.c).map PyVal.num) 10 3
          (by simp only [List.length_map]; omega)
        obtain ⟨bu, bl, hbb⟩ := @ta_bbands_ge ((candles.map Candle.c).map PyVal.num) 20
          (by simp only [List.length_map]; omega)
        refine ⟨?_, ?_, ?_⟩
        rotate_left
        · simp only [add_indicators]
          rw [hC]; simp only []
          rw [getCol_setCol_ne _ "EMA_50" "High" _ (by decide),
            getCol_setCol_ne _ "SMA_50" "High" _ (by decide), hH]
          simp only []
          rw [getCol_setCol_ne _ "EMA_50" "Low" _ (by decide),
            getCol_setCol_ne _ "SMA_50" "Low" _ (by decide), hL]
          simp only []
          rw [hst]; simp only []
          rw [hmacd]; simp only []
          rw [hbb]; simp only []
          rw [getCol_setCol_ne _ "BB_Lower" "Volume" _ (by decide),
            getCol_setCol_ne _ "BB_Upper" "Volume" _ (by decide),
            getCol_setCol_ne _ "RSI" "Volume" _ (by decide),
            getCol_setCol_ne _ "Supertrend" "Volume" _ (by decide),
            getCol_setCol_ne _ "EMA_50" "Volume" _ (by decide),
            getCol_setCol_ne _ "SMA_50" "Volume" _ (by decide)
            , hV]
          simp only []
          rw [if_neg (by decide : ¬ (false = true))]
          exact rfl
        refine ⟨?_, ?_, ?_, ?_, ?_, ?_, ?_, ?_, ?_, ?_, ?_, ?_, ?_⟩
        all_goals try simp [setCol_index, lookup_setCol, mkFrame, List.lookup, colOfOpt]
        all_goals try omega
  · obtain ⟨st, hst⟩ := @ta_supertrend_ge ((candles.map Candle.h).map PyVal.num)
      ((candles.map Candle.l).map PyVal.num)
      ((candles.map Candle.c).map PyVal.num) 10 3
      (by simp only [List.length_map]; omega)
    obtain ⟨bu, bl, hbb⟩ := @ta_bbands_ge ((candles.map Candle.c).map PyVal.num) 20
      (by simp only [List.length_map]; omega)
    obtain ⟨mc, sc, hmacd⟩ := ta_macd_map_num_ok (candles.map Candle.c)
      (by simp only [List.length_map]; omega)
    refine ⟨?_, ?_, ?_⟩
    rotate_left
    · simp only [add_indicators]
      rw [hC]; simp only []
      rw [getCol_setCol_ne _ "EMA_50" "High" _ (by decide),
        getCol_setCol_ne _ "SMA_50" "High" _ (by decide), hH]
      simp only []
      rw [getCol_setCol_ne _ "EMA_50" "Low" _ (by decide),
        getCol_setCol_ne _ "SMA_50" "Low" _ (by decide), hL]
      simp only []
      rw [hst]; simp only []
      rw [hmacd]; simp only []
      rw [hbb]; simp only []
      rw [getCol_setCol_ne _ "BB_Lower" "Volume" _ (by decide),
        getCol_setCol_ne _ "BB_Upper" "Volume" _ (by decide),
        getCol_setCol_ne _ "MACD_Signal" "Volume" _ (by decide),
        getCol_setCol_ne _ "MACD" "Volume" _ (by decide),
        getCol_setCol_ne _ "RSI" "Volume" _ (by decide),
        getCol_setCol_ne _ "Supertrend" "Volume" _ (by decide),
        getCol_setCol_ne _ "EMA_50" "Volume" _ (by decide),
        getCol_setCol_ne _ "SMA_50" "Volume" _ (by decide)
        , hV]
      simp only []
      rw [if_neg (by decide : ¬ (false = true))]
      exact rfl
    refine ⟨?_, ?_, ?_, ?_, ?_, ?_, ?_, ?_, ?_, ?_, ?_, ?_, ?_⟩
    all_goals try simp [setCol_index, lookup_setCol, mkFrame, List.lookup, colOfOpt]
    all_goals try omega

/-! ## Small access helpers -/

theorem getLast?_replicate_succ {α : Type} (n : ℕ) (a : α) :
    (List.replicate (n+1) a).getLast? = some a := by
  rw [List.getLast?_eq_getElem?, List.length_replicate]
  rw [List.getElem?_replicate, if_pos (by omega)]

theorem getLast?_range_map {α : Type} (n : ℕ) (f : ℕ → α) (h : 0 < n) :
    ((List.range n).map f).getLast? = some (f (n-1)) := by
  rw [List.getLast?_eq_getElem?, List.length_map, List.length_range]
  rw [List.getElem?_map, List.getElem?_range (by omega)]
  rfl

theorem lastCell_eq {g : Frame} {name : String} {col : List PyVal} {x : PyVal}
    (hlk : g.cols.lookup name = some col) (hlast : col.getLast? = some x) :
    lastCell g name = .ok x := by
  simp [lastCell, Frame.getCol, hlk, hlast]

/-- A constant daily candle list: close 4, volume 2, one bar a day. -/
def constDaily (n : ℕ) : List Candle :=
  (List.range n).map fun (i : ℕ) => ⟨1440 * (i : ℤ), 4, 4, 4, 4, 2⟩

theorem constDaily_length (n : ℕ) : (constDaily n).length = n := by
  simp only [constDaily, List.length_map, List.length_range]

theorem constDaily_c (n : ℕ) :
    (constDaily n).map Candle.c = List.replicate n (4:ℚ) := by
  simp only [constDaily, List.map_map]
  rw [show ((Candle.c ∘ fun (i : ℕ) => (⟨1440 * (i : ℤ), 4, 4, 4, 4, 2⟩ : Candle)) =
    fun (_ : ℕ) => (4:ℚ)) from rfl]
  rw [List.map_const', List.length_range]

theorem constDaily_v (n : ℕ) :
    (constDaily n).map Candle.v = List.replicate n (2:ℚ) := by
  simp only [constDaily, List.map_map]
  rw [show ((Candle.v ∘ fun (i : ℕ) => (⟨1440 * (i : ℤ), 4, 4, 4, 4, 2⟩ : Candle)) =
    fun (_ : ℕ) => (2:ℚ)) from rfl]
  rw [List.map_const', List.length_range]

/-- C8: on every normalized series of at least 50 rows the Indicator Engine
succeeds and its `EMA_50` column is defined (numeric) at every index from 49
on and undefined (NaN) strictly before index 49. -/
theorem ema50_warmup (candles : List Candle) (h50 : 50 ≤ candles.length) :
    ∃ g col, add_indicators (mkFrame candles) false = .ok g ∧
      g.cols.lookup "EMA_50" = some col ∧
      col.length = candles.length ∧
      ∀ i (hi : i < col.length), (col.get ⟨i, hi⟩).isNum = true ↔ 49 ≤ i := by
  obtain ⟨g, hok, -, -, -, -, hema, -⟩ :=
    add_indicators_mkFrame candles (Or.inr (by omega))
  obtain ⟨ys, hys, hlen⟩ := ta_ema_map_num (candles.map Candle.c) 50 (by omega)
    (by simp only [List.length_map]; omega)
  rw [show (50 - 1 : ℕ) = 49 from rfl] at hys
  refine ⟨g, List.replicate 49 PyVal.nan ++ ys.map PyVal.num, hok, ?_, ?_, ?_⟩
  · rw [hema, hys]
    simp [colOfOpt]
  · simp only [List.length_map] at hlen
    simp only [List.length_append, List.length_replicate, List.length_map]
    omega
  · exact isNum_rep_nan_append_map_num 49 ys

/-- C8 witness: the theorem applied to a concrete constant 50-row series. -/
theorem ema50_warmup_witness :
    50 ≤ (constDaily 50).length ∧
    (∃ g col, add_indicators (mkFrame (constDaily 50)) false = .ok g ∧
      g.cols.lookup "EMA_50" = some col ∧
      col.length = (constDaily 50).length ∧
      ∀ i (hi : i < col.length), (col.get ⟨i, hi⟩).isNum = true ↔ 49 ≤ i) :=
  ⟨by rw [constDaily_length], ema50_warmup (constDaily 50)
    (by rw [constDaily_length])⟩

/-- C10: a successful Indicator Engine run never changes the row index or
the OHLCV columns of its input frame - it only adds indicator columns. -/
theorem add_indicators_preserves_ohlcv (df : Frame) (b : Bool) (g : Frame)
    (h : add_indicators df b = .ok g) :
    g.index = df.index ∧
    g.cols.lookup "Open" = df.cols.lookup "Open" ∧
    g.cols.lookup "High" = df.cols.lookup "High" ∧
    g.cols.lookup "Low" = df.cols.lookup "Low" ∧
    g.cols.lookup "Close" = df.cols.lookup "Close" ∧
    g.cols.lookup "Volume" = df.cols.lookup "Volume" :=
  ⟨(add_indicators_ok_master df b g h "Open" (by decide) (by decide) (by decide)
      (by decide) (by decide) (by decide) (by decide) (by decide) (by decide)
      (Or.inl (by decide))).1,
   (add_indicators_ok_master df b g h "Open" (by decide) (by decide) (by decide)
      (by decide) (by decide) (by decide) (by decide) (by decide) (by decide)
      (Or.inl (by decide))).2,
   (add_indicators_ok_master df b g h "High" (by decide) (by decide) (by decide)
      (by decide) (by decide) (by decide) (by decide) (by decide) (by decide)
      (Or.inl (by decide))).2,
   (add_indicators_ok_master df b g h "Low" (by decide) (by decide) (by decide)
      (by decide) (by decide) (by decide) (by decide) (by decide) (by decide)
      (Or.inl (by decide))).2,
   (add_indicators_ok_master df b g h "Close" (by decide) (by decide) (by decide)
      (by decide) (by decide) (by decide) (by decide) (by decide) (by decide)
      (Or.inl (by decide))).2,
   (add_indicators_ok_master df b g h "Volume" (by decide) (by decide) (by decide)
      (by decide) (by decide) (by decide) (by decide) (by decide) (by decide)
      (Or.inl (by decide))).2⟩

/-- C4: a daily (`is_intraday = false`) Indicator Engine run on a normalized
candle frame never produces a `VWAP` key. -/
theorem no_vwap_when_daily (rows : List Candle) (g : Frame)
    (h : add_indicators (mkFrame rows) false = .ok g) :
    g.cols.lookup "VWAP" = none := by
  have hm := (add_indicators_ok_master (mkFrame rows) false g h "VWAP"
    (by decide) (by decide) (by decide) (by decide) (by decide) (by decide)
    (by decide) (by decide) (by decide) (Or.inr rfl)).2
  rw [hm]
  simp [mkFrame, List.lookup]

/-- The Indicator Engine's output on a one-row daily frame, written out. -/
def oneRowResult : Frame :=
  { index := [0],
    cols := [("Open", [.num 4]), ("High", [.num 4]), ("Low", [.num 4]),
             ("Close", [.num 4]), ("Volume", [.num 2]),
             ("SMA_50", [.pynone]), ("EMA_50", [.pynone]),
             ("RSI", [.pynone]), ("Vol_SMA_5", [.pynone])] }

theorem add_indicators_oneRow :
    add_indicators (mkFrame (constDaily 1)) false = .ok oneRowResult := by
  norm_num +decide [add_indicators, mkFrame, constDaily, oneRowResult, Frame.getCol,
    Frame.setCol, Frame.setColAux, colOfOpt, ta_sma, ta_ema, ta_rsi, ta_macd,
    ta_bbands, ta_supertrend, List.lookup, List.range]

/-- C4 witness: the theorem applied to the concrete one-row run. -/
theorem no_vwap_when_daily_witness : oneRowResult.cols.lookup "VWAP" = none :=
  no_vwap_when_daily (constDaily 1) oneRowResult add_indicators_oneRow

/-- C10 witness: the theorem applied to the concrete one-row run. -/
theorem add_indicators_preserves_ohlcv_witness :
    oneRowResult.index = (mkFrame (constDaily 1)).index ∧
    oneRowResult.cols.lookup "Open" = (mkFrame (constDaily 1)).cols.lookup "Open" ∧
    oneRowResult.cols.lookup "High" = (mkFrame (constDaily 1)).cols.lookup "High" ∧
    oneRowResult.cols.lookup "Low" = (mkFrame (constDaily 1)).cols.lookup "Low" ∧
    oneRowResult.cols.lookup "Close" = (mkFrame (constDaily 1)).cols.lookup "Close" ∧
    oneRowResult.cols.lookup "Volume" = (mkFrame (constDaily 1)).cols.lookup "Volume" :=
  add_indicators_preserves_ohlcv (mkFrame (constDaily 1)) false oneRowResult
    add_indicators_oneRow

/-- On a 26..33-row normalized series the Engine crashes in `ta.macd`
(`histogram = macd - None` raises a `TypeError`). -/
theorem add_indicators_macd_crash (candles : List Candle)
    (h1 : 26 ≤ candles.length) (h2 : candles.length ≤ 33) :
    add_indicators (mkFrame candles) false = .error .typeError := by
  have hC := mkFrame_getCol_Close candles
  have hH := mkFrame_getCol_High candles
  have hL := mkFrame_getCol_Low candles
  obtain ⟨st, hst⟩ := @ta_supertrend_ge ((candles.map Candle.h).map PyVal.num)
    ((candles.map Candle.l).map PyVal.num)
    ((candles.map Candle.c).map PyVal.num) 10 3
    (by simp only [List.length_map]; omega)
  have hmacd : ta_macd ((candles.map Candle.c).map PyVal.num) =
      .error .typeError :=
    ta_macd_map_num_err (candles.map Candle.c)
      (by simp only [List.length_map]; omega)
      (by simp only [List.length_map]; omega)
  simp only [add_indicators]
  rw [hC]; simp only []
  rw [getCol_setCol_ne _ "EMA_50" "High" _ (by decide),
    getCol_setCol_ne _ "SMA_50" "High" _ (by decide), hH]
  simp only []
  rw [getCol_setCol_ne _ "EMA_50" "Low" _ (by decide),
    getCol_setCol_ne _ "SMA_50" "Low" _ (by decide), hL]
  simp only []
  rw [hst]; simp only []
  rw [hmacd]

/-- C7 (amended): for a daily Engine run on a normalized series, the
unguarded keys (`SMA_50`, `EMA_50`, `RSI`, `Vol_SMA_5`) are always present -
as all-`None` columns when the computation yielded no result - while the
guarded keys (`Supertrend`, `MACD`, `MACD_Signal`, `BB_Upper`, `BB_Lower`)
are present exactly when the series was long enough (10/26/26/20/20 rows);
no `VWAP` key appears; and on a 26..33-row series the Engine raises a
`TypeError` instead of completing. -/
theorem indicator_key_policy (candles : List Candle) :
    (candles.length < 26 ∨ 34 ≤ candles.length →
      ∃ g, add_indicators (mkFrame candles) false = .ok g ∧
        g.cols.lookup "SMA_50" ≠ none ∧ g.cols.lookup "EMA_50" ≠ none ∧
        g.cols.lookup "RSI" ≠ none ∧ g.cols.lookup "Vol_SMA_5" ≠ none ∧
        (g.cols.lookup "Supertrend" ≠ none ↔ 10 ≤ candles.length) ∧
        (g.cols.lookup "MACD" ≠ none ↔ 26 ≤ candles.length) ∧
        (g.cols.lookup "MACD_Signal" ≠ none ↔ 26 ≤ candles.length) ∧
        (g.cols.lookup "BB_Upper" ≠ none ↔ 20 ≤ candles.length) ∧
        (g.cols.lookup "BB_Lower" ≠ none ↔ 20 ≤ candles.length) ∧
        g.cols.lookup "VWAP" = none) ∧
    (26 ≤ candles.length → candles.length ≤ 33 →
      add_indicators (mkFrame candles) false = .error .typeError) := by
  constructor
  · intro hn
    obtain ⟨g, hok, hidx, hCl, hVol, hS, hE, hR, hVS, hsup, hmac, hms, hbu,
      hbl, hvw⟩ := add_indicators_mkFrame candles hn
    refine ⟨g, hok, ?_, ?_, ?_, ?_, hsup, hmac, hms, hbu, hbl, hvw⟩
    · rw [hS]; simp
    · rw [hE]; simp
    · rw [hR]; simp
    · rw [hVS]; simp
  · exact fun h1 h2 => add_indicators_macd_crash candles h1 h2

/-- C7 counterexample: on a one-row series `ta.sma` yields no result, yet
the `SMA_50` key is present (an all-`None` column) instead of omitted; and
on a 30-row series the Engine raises instead of returning at all. -/
theorem indicator_key_policy_counterexample :
    ta_sma (((constDaily 1).map Candle.c).map PyVal.num) 50 = none ∧
    add_indicators (mkFrame (constDaily 1)) false = .ok oneRowResult ∧
    oneRowResult.cols.lookup "SMA_50" = some [PyVal.pynone] ∧
    add_indicators (mkFrame (constDaily 30)) false = .error .typeError := by
  refine ⟨?_, add_indicators_oneRow, ?_, ?_⟩
  · exact ta_sma_lt (by
      simp only [List.length_map, constDaily_length]
      omega)
  · simp [oneRowResult, List.lookup]
  · exact add_indicators_macd_crash (constDaily 30)
      (by rw [constDaily_length]; omega) (by rw [constDaily_length]; omega)

/-- C7 witness: the amended theorem applied to the concrete one-row and
30-row runs. -/
theorem indicator_key_policy_witness :
    (∃ g, add_indicators (mkFrame (constDaily 1)) false = .ok g ∧
      g.cols.lookup "SMA_50" ≠ none ∧ g.cols.lookup "EMA_50" ≠ none ∧
      g.cols.lookup "RSI" ≠ none ∧ g.cols.lookup "Vol_SMA_5" ≠ none ∧
      (g.cols.lookup "Supertrend" ≠ none ↔ 10 ≤ (constDaily 1).length) ∧
      (g.cols.lookup "MACD" ≠ none ↔ 26 ≤ (constDaily 1).length) ∧
      (g.cols.lookup "MACD_Signal" ≠ none ↔ 26 ≤ (constDaily 1).length) ∧
      (g.cols.lookup "BB_Upper" ≠ none ↔ 20 ≤ (constDaily 1).length) ∧
      (g.cols.lookup "BB_Lower" ≠ none ↔ 20 ≤ (constDaily 1).length) ∧
      g.cols.lookup "VWAP" = none) ∧
    add_indicators (mkFrame (constDaily 30)) false = .error .typeError :=
  ⟨(indicator_key_policy (constDaily 1)).1
      (Or.inl (by rw [constDaily_length]; norm_num)),
   (indicator_key_policy (constDaily 30)).2
      (by rw [constDaily_length]; omega) (by rw [constDaily_length]; omega)⟩

/-- A two-row 15-minute candle list (same trading day). -/
def intraCandles : List Candle := [⟨0, 4, 5, 3, 4, 2⟩, ⟨15, 4, 6, 3, 5, 2⟩]

/-- The Indicator Engine's output on the two-row intraday frame. -/
def intraResult : Frame :=
  { index := [0, 15],
    cols := [("Open", [.num 4, .num 4]), ("High", [.num 5, .num 6]),
             ("Low", [.num 3, .num 3]), ("Close", [.num 4, .num 5]),
             ("Volume", [.num 2, .num 2]),
             ("SMA_50", [.pynone, .pynone]), ("EMA_50", [.pynone, .pynone]),
             ("RSI", [.pynone, .pynone]), ("Vol_SMA_5", [.pynone, .pynone]),
             ("VWAP", [.num 4, .num (13/3)])] }

theorem add_indicators_intra :
    add_indicators (mkFrame intraCandles) true = .ok intraResult := by
  have hvwap : ta_vwap (mkFrame intraCandles).index
      ((intraCandles.map Candle.h).map PyVal.num)
      ((intraCandles.map Candle.l).map PyVal.num)
      ((intraCandles.map Candle.c).map PyVal.num)
      ((intraCandles.map Candle.v).map PyVal.num) = [.num 4, .num (13/3)] := by
    norm_num [ta_vwap, mkFrame, intraCandles, pyAdd, pyMul, PyVal.toOpt,
      PyVal.isNum, Function.comp, List.filterMap_cons, List.range,
      List.range.loop, Int.fdiv]
  simp only [add_indicators]
  rw [mkFrame_getCol_Close]; simp only []
  rw [getCol_setCol_ne _ "EMA_50" "High" _ (by decide),
    getCol_setCol_ne _ "SMA_50" "High" _ (by decide), mkFrame_getCol_High]
  simp only []
  rw [getCol_setCol_ne _ "EMA_50" "Low" _ (by decide),
    getCol_setCol_ne _ "SMA_50" "Low" _ (by decide), mkFrame_getCol_Low]
  simp only []
  rw [ta_supertrend_lt (by simp [intraCandles])]
  simp only []
  rw [ta_macd_lt (by simp [intraCandles])]
  simp only []
  rw [ta_bbands_lt (by simp [intraCandles])]
  simp only []
  rw [getCol_setCol_ne _ "RSI" "Volume" _ (by decide),
    getCol_setCol_ne _ "EMA_50" "Volume" _ (by decide),
    getCol_setCol_ne _ "SMA_50" "Volume" _ (by decide), mkFrame_getCol_Volume]
  simp only []
  rw [if_pos trivial, hvwap]
  norm_num +decide [ta_sma, ta_ema, ta_rsi, colOfOpt, Frame.setCol,
    Frame.setColAux, mkFrame, intraCandles, intraResult, List.lookup]

theorem exceptBind_ok {ε α β : Type} (a : α) (f : α → Except ε β) :
    ((Except.ok a : Except ε α) >>= f) = f a := rfl

/-- C5 counterexample: on a 50-row constant-price daily series the `RSI`
field of the latest row is undefined (NaN, from the pandas `0.0/0.0`), yet
the analysis run does not fail - it silently treats momentum as not
bullish and produces a full `NO_TRADE` verdict. -/
theorem missing_field_counterexample :
    ∃ g, add_indicators (mkFrame (constDaily 50)) false = .ok g ∧
      lastCell g "RSI" = .ok PyVal.nan ∧
      lastCell g "EMA_50" = .ok (.num 4) ∧
      analyze (some (mkFrame (constDaily 50))) (some (mkFrame intraCandles)) =
        .verdictOut ⟨false, false, false, true, 0, .NO_TRADE⟩ := by
  obtain ⟨g, hok, hidx, hCl, hVol, hS, hE, hR, hVS, -, -, -, -, -, -⟩ :=
    add_indicators_mkFrame (constDaily 50) (Or.inr (by rw [constDaily_length]; norm_num))
  simp only [constDaily_c, constDaily_v, constDaily_length,
    List.map_replicate] at hCl hVol hE hR hVS
  rw [ta_rsi_replicate 4 50 14 (by omega) (by omega)] at hR
  rw [ta_ema_replicate 4 50 50 (by omega) (by omega)] at hE
  rw [ta_sma_ge (by simp)] at hVS
  rw [rollingMean_replicate 2 50 5 (by omega)] at hVS
  simp only [colOfOpt] at hR hE hVS
  have hlastR : lastCell g "RSI" = .ok PyVal.nan :=
    lastCell_eq hR (by rw [show (50:ℕ) = 49 + 1 from rfl, getLast?_replicate_succ])
  have hlastE : lastCell g "EMA_50" = .ok (.num 4) := by
    refine lastCell_eq hE ?_
    rw [List.getLast?_append_of_ne_nil _ (by
      intro hq
      have := congrArg List.length hq
      simp at this)]
    rw [show (50 - 50 + 1 : ℕ) = 0 + 1 from rfl, getLast?_replicate_succ]
  have hlastC : lastCell g "Close" = .ok (.num 4) :=
    lastCell_eq hCl (by rw [show (50:ℕ) = 49 + 1 from rfl, getLast?_replicate_succ])
  have hlastV : lastCell g "Volume" = .ok (.num 2) :=
    lastCell_eq hVol (by rw [show (50:ℕ) = 49 + 1 from rfl, getLast?_replicate_succ])
  have hlastVS : lastCell g "Vol_SMA_5" = .ok (.num 2) := by
    refine lastCell_eq hVS ?_
    rw [getLast?_range_map 50 _ (by omega)]
    norm_num
  have hlkIC : intraResult.cols.lookup "Close" = some [PyVal.num 4, PyVal.num 5] := by
    simp [intraResult, List.lookup]
  have hlastIC : lastCell intraResult "Close" = .ok (.num 5) :=
    lastCell_eq hlkIC rfl
  have hlkIV : intraResult.cols.lookup "VWAP" =
      some [PyVal.num 4, PyVal.num (13/3)] := by
    simp [intraResult, List.lookup]
  have hlastIV : lastCell intraResult "VWAP" = .ok (.num (13/3)) :=
    lastCell_eq hlkIV rfl
  have hsc : scorer ⟨.num 4, .num 4, .nan, .num 2, .num 2⟩
      ⟨.num 5, .num (13/3)⟩ = .ok ⟨false, false, false, true, 0, .NO_TRADE⟩ := by
    rw [scorer_ok_iff]
    norm_num [pyGt, momCheck, pyLt]
  refine ⟨g, hok, hlastR, hlastE, ?_⟩
  simp only [analyze]
  rw [if_neg (by simp [mkFrame, Frame.empty, constDaily, intraCandles])]
  simp only [hok, add_indicators_intra, exceptBind_ok, hlastR, hlastE, hlastC,
    hlastV, hlastVS, hlastIC, hlastIV, hsc]

/-! ## C6: row order of the normalized frame -/

/-- `parseRows` keeps the timestamps of the raw rows in arrival order. -/
theorem parseRows_ts : ∀ (rows : List RawRow) (cs : List Candle),
    parseRows rows = some cs →
    cs.map (fun k => some k.ts) = rows.map RawRow.ts := by
  intro rows
  induction rows with
  | nil => intro cs h; cases h; rfl
  | cons r rs ih =>
    intro cs h
    simp only [parseRows] at h
    repeat' split at h
    · cases h
      rename_i c0 cs0 hsplit hr hrs
      simp only [List.map_cons, List.cons.injEq]
      refine ⟨?_, ih _ hrs⟩
      simp only [parseRow] at hr
      repeat' split at hr <;> cases hr <;> simp_all
    · cases h

/-- A two-row payload whose timestamps arrive in descending order. -/
def rowsDesc : List RawRow :=
  [⟨some 2, some 1, some 1, some 1, some 1, some 1⟩,
   ⟨some 1, some 1, some 1, some 1, some 1, some 1⟩]

/-- C6 (counterexample): `fetch_data` does NOT sort by timestamp.  A payload
arriving in descending order is normalized into a frame whose index is still
descending, refuting the claim that the normalizer always produces an
ascending index. -/
theorem fetch_no_sort_counterexample :
    fetch_data (.ok rowsDesc) =
      some (mkFrame [⟨2, 1, 1, 1, 1, 1⟩, ⟨1, 1, 1, 1, 1, 1⟩]) ∧
    (mkFrame [⟨2, 1, 1, 1, 1, 1⟩, ⟨1, 1, 1, 1, 1, 1⟩]).index = [2, 1] ∧
    ¬ List.Sorted (· ≤ ·) ([2, 1] : List ℤ) := by
  refine ⟨rfl, rfl, ?_⟩
  decide

/-- C6 (amended): `fetch_data` has no sorting step.  Whenever it succeeds,
the index of the normalized frame is exactly the sequence of input row
timestamps in arrival order - ascending, descending or shuffled alike. -/
theorem fetch_preserves_order (rows : List RawRow) (f : Frame)
    (h : fetch_data (.ok rows) = some f) :
    f.index.map some = rows.map RawRow.ts := by
  simp only [fetch_data] at h
  split at h
  · cases h
    rename_i cs hcs
    simp only [mkFrame, List.map_map, Function.comp]
    exact parseRows_ts rows cs hcs
  · cases h

/-- Witness: the amended order theorem, applied to the descending payload. -/
theorem fetch_preserves_order_witness :
    (mkFrame [⟨2, 1, 1, 1, 1, 1⟩, ⟨1, 1, 1, 1, 1, 1⟩]).index.map some =
      rowsDesc.map RawRow.ts :=
  fetch_preserves_order rowsDesc
    (mkFrame [⟨2, 1, 1, 1, 1, 1⟩, ⟨1, 1, 1, 1, 1, 1⟩]) rfl

/-! ## C9: fetch failures collapse -/

/-- A raw row whose timestamp does not parse. -/
def badRow : RawRow := ⟨none, some 1, some 1, some 1, some 1, some 1⟩

/-- C9: every Gateway failure and every malformed payload collapses into
`none` - `fetch_data` never raises - and a `None` frame on either timeframe
sends the analysis into the "Could not fetch data" branch instead of
crashing. -/
theorem fetch_failures_collapse :
    (∀ e : FetchErr, fetch_data (.error e) = none) ∧
    (∀ rows : List RawRow, parseRows rows = none →
      fetch_data (.ok rows) = none) ∧
    (∀ d : Option Frame, analyze none d = .fetchFailure) ∧
    (∀ d : Option Frame, analyze d none = .fetchFailure) := by
  refine ⟨fun e => rfl, fun rows h => ?_, fun d => ?_, fun d => ?_⟩
  · simp [fetch_data, h]
  · cases d <;> rfl
  · cases d <;> rfl

/-- Witness: each collapse case of C9 at a concrete input. -/
theorem fetch_failures_collapse_witness :
    fetch_data (.error FetchErr.network) = none ∧
    fetch_data (.ok [badRow]) = none ∧
    analyze none none = .fetchFailure ∧
    analyze (some (mkFrame [])) none = .fetchFailure :=
  ⟨fetch_failures_collapse.1 .network,
   fetch_failures_collapse.2.1 [badRow] rfl,
   fetch_failures_collapse.2.2.1 none,
   fetch_failures_collapse.2.2.2 (some (mkFrame []))⟩
